import Mathlib

/-!
Verification development for the mjlog → tenhou-json converter.

The Rust sources are shallowly embedded:
* machine integers become `Nat`/`Int`; `i32` values are kept in the interval
  `[-2^31, 2^31)` by an explicit two's-complement wrap (`wrap32`) wherever the
  source can overflow (value bits shifted out of `<<` wrap in every Rust build
  mode; other value overflow is modelled with wraparound semantics);
* a shift amount `≥ 32` is an arithmetic-overflow program error in Rust
  (panic under overflow checks), modelled as `none`;
* Rust panics (`unwrap`, `assert!`, out-of-bounds indexing, `panic!`) are
  modelled by a dedicated `panicE` error constructor added to the embedded
  error enums;
* `f64` values are only ever copied by the converter, never computed with,
  so they are carried by an uninterpreted wrapper type `F64`;
* Rust `&str` values processed character by character become `List Char`
  (Rust iterates Unicode scalar values, exactly Lean's `Char`).
-/

deriving instance DecidableEq for Except

/-- Two's-complement interpretation of an integer as a 32-bit value. -/
def wrap32 (x : Int) : Int := (x + 2 ^ 31) % 2 ^ 32 - 2 ^ 31

/-- Wrapping 32-bit addition. -/
def add32 (a b : Int) : Int := wrap32 (a + b)

/-- Wrapping 32-bit multiplication. -/
def mul32 (a b : Int) : Int := wrap32 (a * b)

/-- Uninterpreted carrier for `f64` values.  The converter only ever copies
them between records (and writes one literal), never computes with them, so
a tagged wrapper is a faithful model. -/
structure F64 where
  tag : String
deriving DecidableEq

namespace Tenhou

/-! ## tenhou-json/src/score.rs : data model -/

/-- `ScoreRank` from score.rs. -/
inductive ScoreRank where
  | Normal (fu han : Nat)
  | Mangan
  | Haneman
  | Baiman
  | Sanbaiman
  | Yakuman
deriving DecidableEq

/-- `Score` from score.rs. `KoTsumo` is (non-dealer payment, dealer payment). -/
inductive Score where
  | OyaTsumo (x : Int)
  | KoTsumo (ko oya : Int)
  | Ron (x : Int)
deriving DecidableEq

/-- `RankedScore` from score.rs. -/
structure RankedScore where
  rank : ScoreRank
  score : Score
deriving DecidableEq

/-! ## Decimal printing (Rust `Display` for integers), on `List Char` -/

/-- The character of a decimal digit. -/
def digitChar (d : Nat) : Char := Char.ofNat (48 + d)

/-- Fuelled digit emitter mirroring standard decimal formatting
(most significant digit first). -/
def natCharsCore : Nat → Nat → List Char → List Char
  | 0, _, acc => acc
  | fuel + 1, n, acc =>
    if n < 10 then digitChar n :: acc
    else natCharsCore fuel (n / 10) (digitChar (n % 10) :: acc)

/-- Decimal digits of a natural number, as Rust's `Display` prints them. -/
def natChars (n : Nat) : List Char := natCharsCore (n + 1) n []

/-- Decimal form of an `i32` value, as Rust's `Display` prints it. -/
def intChars (x : Int) : List Char :=
  if x < 0 then '-' :: natChars x.natAbs else natChars x.toNat

/-- `impl fmt::Display for ScoreRank` (score.rs), as a character list. -/
def ScoreRank.displayChars : ScoreRank → List Char
  | .Normal fu han => natChars fu ++ ['符'] ++ natChars han ++ ['飜']
  | .Mangan => ['満', '貫']
  | .Haneman => ['跳', '満']
  | .Baiman => ['倍', '満']
  | .Sanbaiman => ['三', '倍', '満']
  | .Yakuman => ['役', '満']

/-- `impl fmt::Display for Score` (score.rs), as a character list. -/
def Score.displayChars : Score → List Char
  | .OyaTsumo x => intChars x ++ ['点', '∀']
  | .KoTsumo ko oya => intChars ko ++ ['-'] ++ intChars oya ++ ['点']
  | .Ron x => intChars x ++ ['点']

/-- `impl fmt::Display for RankedScore` (score.rs): rank then score. -/
def RankedScore.displayChars (r : RankedScore) : List Char :=
  r.rank.displayChars ++ r.score.displayChars

/-! ## tenhou-json/src/score.rs : the score grammar parser

The Rust functions advance a `Chars` iterator and return `Option`; here a
parser takes the remaining characters and returns the value together with
the rest of the input. -/

/-- `parse_number::<T>` from score.rs: consume a maximal run of ASCII digits
and parse them; `bound` is the exclusive upper bound of the Rust integer
type `T` (`256` for `u8`, `2^31` for `i32`), whose `from_str` rejects
overflow, and an empty digit run fails. -/
def parse_number (bound : Nat) (it : List Char) : Option (Nat × List Char) :=
  let ds := it.takeWhile Char.isDigit
  if ds = [] then none
  else
    let n := ds.foldl (fun a c => 10 * a + (c.toNat - 48)) 0
    if n < bound then some (n, it.dropWhile Char.isDigit) else none

/-- `parse_symbol` from score.rs: consume the literal `symbol` or fail. -/
def parse_symbol (symbol : List Char) (it : List Char) : Option (List Char) :=
  match symbol, it with
  | [], _ => some it
  | c :: sy, d :: it => if d = c then parse_symbol sy it else none
  | _ :: _, [] => none

/-- The `RANKS` table from score.rs. -/
def RANKS : List (List Char × ScoreRank) :=
  [(['満', '貫'], .Mangan), (['跳', '満'], .Haneman), (['倍', '満'], .Baiman),
   (['三', '倍', '満'], .Sanbaiman), (['役', '満'], .Yakuman)]

/-- `parse_rank_normal` from score.rs: `<fu>符<han>飜` with `u8` numbers. -/
def parse_rank_normal (it : List Char) : Option (ScoreRank × List Char) := do
  let (fu, it) ← parse_number 256 it
  let it ← parse_symbol ['符'] it
  let (han, it) ← parse_number 256 it
  let it ← parse_symbol ['飜'] it
  some (.Normal fu han, it)

/-- The loop body of `parse_rank_mangan` from score.rs: first matching entry
of the `RANKS` table wins. -/
def parse_rank_mangan_loop :
    List (List Char × ScoreRank) → List Char → Option (ScoreRank × List Char)
  | [], _ => none
  | (s, r) :: rest, it =>
    match parse_symbol s it with
    | some it => some (r, it)
    | none => parse_rank_mangan_loop rest it

/-- `parse_rank_mangan` from score.rs. -/
def parse_rank_mangan (it : List Char) : Option (ScoreRank × List Char) :=
  parse_rank_mangan_loop RANKS it

/-- `parse_rank` from score.rs: the graduated form first, then named tiers. -/
def parse_rank (it : List Char) : Option (ScoreRank × List Char) :=
  match parse_rank_normal it with
  | some x => some x
  | none => parse_rank_mangan it

/-- `parse_score` from score.rs; numbers are `i32`, hence bound `2^31`. -/
def parse_score (it : List Char) : Option (Score × List Char) := do
  let (num, it) ← parse_number (2 ^ 31) it
  match parse_symbol ['-'] it with
  | some it => do
    let (num2, it) ← parse_number (2 ^ 31) it
    let it ← parse_symbol ['点'] it
    some (.KoTsumo num num2, it)
  | none =>
    match parse_symbol ['点'] it with
    | some it =>
      match parse_symbol ['∀'] it with
      | some it => some (.OyaTsumo num, it)
      | none => some (.Ron num, it)
    | none => none

/-- `parse_ranked_score` from score.rs. -/
def parse_ranked_score (it : List Char) : Option (RankedScore × List Char) := do
  let (rank, it) ← parse_rank it
  let (score, it) ← parse_score it
  some (⟨rank, score⟩, it)

/-- `parse_exact_ranked_score` from score.rs: the whole input must be
consumed, otherwise the parse is rejected. -/
def parse_exact_ranked_score (s : List Char) : Option RankedScore :=
  match parse_ranked_score s with
  | some (ret, []) => some ret
  | _ => none

/-! ## tenhou-json/src/calc.rs -/

/-- `calc_base_points` from calc.rs: `(fu as i32) << (han+2)`.  A shift
amount of 32 or more is an arithmetic-overflow program error in Rust
(modelled as `none`); bits shifted out of the value wrap. -/
def calc_base_points (fu han : Nat) : Option Int :=
  if han + 2 < 32 then some (wrap32 ((fu : Int) * 2 ^ (han + 2))) else none

/-- `ceil_to_100` from calc.rs: `(x+99)/100*100` in `i32` arithmetic
(Rust `/` on `i32` truncates toward zero, hence `Int.tdiv`). -/
def ceil_to_100 (x : Int) : Int := mul32 (Int.tdiv (add32 x 99) 100) 100

/-- `get_oya_ron` from calc.rs. -/
def get_oya_ron (fu han : Nat) : Option RankedScore :=
  match calc_base_points fu han with
  | none => none
  | some base_points =>
    if base_points ≥ 2000 then
      if 13 ≤ han then some ⟨.Yakuman, .Ron 48000⟩
      else if 11 ≤ han then some ⟨.Sanbaiman, .Ron 36000⟩
      else if 8 ≤ han then some ⟨.Baiman, .Ron 24000⟩
      else if 6 ≤ han then some ⟨.Haneman, .Ron 18000⟩
      else some ⟨.Mangan, .Ron 12000⟩
    else some ⟨.Normal fu han, .Ron (ceil_to_100 (mul32 base_points 6))⟩

/-- `get_ko_ron` from calc.rs. -/
def get_ko_ron (fu han : Nat) : Option RankedScore :=
  match calc_base_points fu han with
  | none => none
  | some base_points =>
    if base_points ≥ 2000 then
      if 13 ≤ han then some ⟨.Yakuman, .Ron 32000⟩
      else if 11 ≤ han then some ⟨.Sanbaiman, .Ron 24000⟩
      else if 8 ≤ han then some ⟨.Baiman, .Ron 16000⟩
      else if 6 ≤ han then some ⟨.Haneman, .Ron 12000⟩
      else some ⟨.Mangan, .Ron 8000⟩
    else some ⟨.Normal fu han, .Ron (ceil_to_100 (mul32 base_points 4))⟩

/-- `get_oya_tsumo` from calc.rs. -/
def get_oya_tsumo (fu han : Nat) : Option RankedScore :=
  match calc_base_points fu han with
  | none => none
  | some base_points =>
    if base_points ≥ 2000 then
      if 13 ≤ han then some ⟨.Yakuman, .OyaTsumo 16000⟩
      else if 11 ≤ han then some ⟨.Sanbaiman, .OyaTsumo 12000⟩
      else if 8 ≤ han then some ⟨.Baiman, .OyaTsumo 8000⟩
      else if 6 ≤ han then some ⟨.Haneman, .OyaTsumo 6000⟩
      else some ⟨.Mangan, .OyaTsumo 4000⟩
    else some ⟨.Normal fu han, .OyaTsumo (ceil_to_100 (mul32 base_points 2))⟩

/-- `get_ko_tsumo` from calc.rs. -/
def get_ko_tsumo (fu han : Nat) : Option RankedScore :=
  match calc_base_points fu han with
  | none => none
  | some base_points =>
    if base_points ≥ 2000 then
      if 13 ≤ han then some ⟨.Yakuman, .KoTsumo 8000 16000⟩
      else if 11 ≤ han then some ⟨.Sanbaiman, .KoTsumo 6000 12000⟩
      else if 8 ≤ han then some ⟨.Baiman, .KoTsumo 4000 8000⟩
      else if 6 ≤ han then some ⟨.Haneman, .KoTsumo 3000 6000⟩
      else some ⟨.Mangan, .KoTsumo 2000 4000⟩
    else
      some ⟨.Normal fu han,
            .KoTsumo (ceil_to_100 base_points) (ceil_to_100 (mul32 base_points 2))⟩

/-- `get_oya_tsumo_yakuman` from calc.rs. -/
def get_oya_tsumo_yakuman (num : Nat) : RankedScore :=
  ⟨.Yakuman, .OyaTsumo (mul32 16000 num)⟩

/-- `get_ko_tsumo_yakuman` from calc.rs. -/
def get_ko_tsumo_yakuman (num : Nat) : RankedScore :=
  ⟨.Yakuman, .KoTsumo (mul32 8000 num) (mul32 16000 num)⟩

/-- `get_oya_ron_yakuman` from calc.rs. -/
def get_oya_ron_yakuman (num : Nat) : RankedScore :=
  ⟨.Yakuman, .Ron (mul32 48000 num)⟩

/-- `get_ko_ron_yakuman` from calc.rs. -/
def get_ko_ron_yakuman (num : Nat) : RankedScore :=
  ⟨.Yakuman, .Ron (mul32 32000 num)⟩

/-! ## tenhou-json/src/model.rs -/

/-- `Tile` from model.rs: two-digit suit/rank code (11–19/21–29/31–39
suited, 41–47 honors, 51/52/53 red fives). -/
structure Tile where
  val : Nat
deriving DecidableEq

/-- `is_valid_tile` from model.rs. -/
def is_valid_tile (x : Nat) : Bool :=
  (11 ≤ x && x ≤ 19) || (21 ≤ x && x ≤ 29) || (31 ≤ x && x ≤ 39) ||
  (41 ≤ x && x ≤ 47) || (51 ≤ x && x ≤ 53)

/-- `Tile::from_u8` from model.rs (`none` models `InvalidTileNumberError`). -/
def Tile.from_u8 (x : Nat) : Option Tile :=
  if is_valid_tile x then some ⟨x⟩ else none

/-- `Tile::to_u8` from model.rs. -/
def Tile.to_u8 (t : Tile) : Nat := t.val

/-- `Tile::is_red` from model.rs. -/
def Tile.is_red (t : Tile) : Bool := t.val = 51 || t.val = 52 || t.val = 53

/-- `Tile::to_black` from model.rs. -/
def Tile.to_black (t : Tile) : Tile :=
  match t.val with
  | 51 => ⟨15⟩
  | 52 => ⟨25⟩
  | 53 => ⟨35⟩
  | _ => t

/-- `Tile::to_red` from model.rs. -/
def Tile.to_red (t : Tile) : Tile :=
  match t.val with
  | 15 => ⟨51⟩
  | 25 => ⟨52⟩
  | 35 => ⟨53⟩
  | _ => t

/-- `Direction` from tenhou-json model.rs (declaration order of the
source enum). -/
inductive Direction where
  | SelfSeat
  | Kamicha
  | Toimen
  | Shimocha
deriving DecidableEq

/-- `IncomingTile` from model.rs. -/
inductive IncomingTile where
  | Tsumo (t : Tile)
  | Chii (combination : Tile × Tile × Tile)
  | Pon (combination : Tile × Tile × Tile) (dir : Direction)
  | Daiminkan (combination : Tile × Tile × Tile × Tile) (dir : Direction)
deriving DecidableEq

/-- `OutgoingTile` from model.rs. -/
inductive OutgoingTile where
  | Discard (t : Tile)
  | Riichi (t : Tile)
  | Ankan (t : Tile)
  | Kakan (combination : Tile × Tile × Tile) (dir : Direction) (added : Tile)
  | Tsumogiri
  | TsumogiriRiichi
  | Dummy
deriving DecidableEq

/-- `RoundSettings` from model.rs. -/
structure RoundSettings where
  kyoku : Nat
  honba : Nat
  kyoutaku : Nat
  points : List Int
  dora : List Tile
  ura_dora : List Tile
deriving DecidableEq

/-- `YakuLevel` from model.rs. -/
inductive YakuLevel where
  | Normal (x : Nat)
  | Yakuman (x : Nat)
deriving DecidableEq

/-- `YakuLevel::get_number` from model.rs. -/
def YakuLevel.get_number : YakuLevel → Nat
  | .Normal x => x
  | .Yakuman x => x

/-- `Yaku` from tenhou-json model.rs. -/
inductive Yaku where
  | MenzenTsumo | Riichi | Ippatsu | Chankan | Rinshankaihou | HaiteiTsumo
  | HouteiRon | Pinfu | Tanyao | Iipeikou
  | PlayerWindTon | PlayerWindNan | PlayerWindSha | PlayerWindPei
  | FieldWindTon | FieldWindNan | FieldWindSha | FieldWindPei
  | YakuhaiHaku | YakuhaiHatsu | YakuhaiChun
  | DoubleRiichi | Chiitoitsu | Chanta | Ikkitsuukan | SansyokuDoujun
  | SanshokuDoukou | Sankantsu | Toitoi | Sanannkou | Shousangen | Honroutou
  | Ryanpeikou | Junchan | Honiisou | Chiniisou | Renhou | Tenhou | Chiihou
  | Daisangen | Suuankou | SuuankouTanki | Tsuuiisou | Ryuuiisou | Chinroutou
  | Tyuurenpoutou | Tyuurenpoutou9 | Kokushimusou | Kokushimusou13
  | Daisuushii | Syousuushii | Suukantsu | Dora | UraDora | AkaDora
deriving DecidableEq

/-- `YakuPair` from model.rs. -/
structure YakuPair where
  yaku : Yaku
  level : YakuLevel
deriving DecidableEq

/-- `Agari` from model.rs. -/
structure Agari where
  delta_points : List Int
  who : Nat
  from_who : Nat
  pao_who : Nat
  ranked_score : RankedScore
  yaku : List YakuPair
deriving DecidableEq

/-- `ExtraRyuukyokuReason` from tenhou-json model.rs. -/
inductive ExtraRyuukyokuReason where
  | Ryuukyoku
  | KyuusyuKyuuhai
  | SuuchaRiichi
  | SanchaHoura
  | SuukanSanra
  | SuufuuRenda
  | NagashiMangan
  | TenpaiEverybody
  | TenpaiNobody
deriving DecidableEq

/-- `RoundResult` from model.rs. -/
inductive RoundResult where
  | Agari (agari_vec : List Agari)
  | Ryuukyoku (reason : ExtraRyuukyokuReason) (delta_points : List Int)
deriving DecidableEq

/-- `Rule` from model.rs. -/
structure Rule where
  disp : String
  aka53 : Bool
  aka52 : Bool
  aka51 : Bool
deriving DecidableEq

/-- `RoundPlayer` from model.rs. -/
structure RoundPlayer where
  hand : List Tile
  incoming : List IncomingTile
  outgoing : List OutgoingTile
deriving DecidableEq

/-- `Round` from model.rs. -/
structure Round where
  settings : RoundSettings
  players : List RoundPlayer
  result : RoundResult
deriving DecidableEq

/-- `Connection` from model.rs (`log` is an `i8` in the source, `-1`
before the first round-init). -/
structure Connection where
  what : Nat
  log : Int
  who : Nat
  step : Nat
deriving DecidableEq

/-- `TenhouJson` from model.rs. -/
structure TenhouJson where
  ver : F64
  reference : String
  rounds : List Round
  connections : List Connection
  ratingc : String
  rule : Rule
  lobby : Nat
  dan : List String
  rate : List F64
  sx : List String
  final_points : List Int
  final_results : List F64
  names : List String
deriving DecidableEq

/-! ## tenhou-json/src/parser.rs : the decorated-string decoder

The source tracks a location path inside `TenhouJsonError`; only the error
kind is relevant here, so the embedding carries the kind alone.  Rust
panics (the out-of-bounds chunk access on an odd digit count) are modelled
by the extra `panicE` constructor. -/

/-- `TenhouJsonErrorKind` from parser.rs, plus `panicE` modelling a Rust
panic. -/
inductive TenhouJsonErrorKind where
  | JsonParseError
  | MissingField
  | TypeMismatch
  | InvalidArrayLength
  | InvalidMeld
  | InvalidRiichi
  | InvalidAnkan
  | InvalidKakan
  | InvalidDecoration
  | InvalidTileNumber
  | InvalidExtraRyuukyokuReason
  | InvalidYakuName
  | InvalidYakuLevel
  | InvalidYakuFormat
  | InvalidRankedScore
  | InvalidAgariFormat
  | InvalidLetterPosition
  | panicE
deriving DecidableEq

/-- `conv_tile_from_u8` from parser.rs. -/
def conv_tile_from_u8 (x : Nat) : Except TenhouJsonErrorKind Tile :=
  match Tile.from_u8 x with
  | some t => .ok t
  | none => .error .InvalidTileNumber

/-- `conv_tile_from_ascii` from parser.rs: two digit characters form a
two-digit tile code. -/
def conv_tile_from_ascii (x0 x1 : Char) : Except TenhouJsonErrorKind Tile :=
  conv_tile_from_u8 ((x0.toNat - 48) * 10 + (x1.toNat - 48))

/-- The `numbers.chunks(2).map(conv_tile_from_ascii).collect` step of
`parse_decorated_tile`: a dangling single character makes the Rust closure
index out of bounds (`c[1]`), a panic. -/
def conv_tile_chunks : List Char → Except TenhouJsonErrorKind (List Tile)
  | [] => .ok []
  | [_] => .error .panicE
  | c0 :: c1 :: rest => do
    let t ← conv_tile_from_ascii c0 c1
    let ts ← conv_tile_chunks rest
    .ok (t :: ts)

/-- `parse_decorated_tile` from parser.rs. -/
def parse_decorated_tile (s : List Char) :
    Except TenhouJsonErrorKind (List Tile × Char × Nat) :=
  if ¬ (s.all Char.isAlphanum) then .error .InvalidMeld
  else
    match s.enum.find? (fun p => p.2.isAlpha) with
    | none => .error .InvalidMeld
    | some (letter_pos, letter) =>
      if letter_pos % 2 ≠ 0 then .error .InvalidMeld
      else
        let numbers := (s.enum.filter (fun p => p.1 ≠ letter_pos)).map (fun p => p.2)
        if ¬ (numbers.all Char.isDigit) then .error .InvalidMeld
        else do
          let tiles ← conv_tile_chunks numbers
          .ok (tiles, letter, letter_pos)

/-! ## Statement-side predicates used by the round-trip theorems -/

/-- A graduated rank carries `u8` fields in the source. -/
def rankOK : ScoreRank → Prop
  | .Normal fu han => fu < 256 ∧ han < 256
  | _ => True

/-- Every payment amount of the score is nonnegative. -/
def scoreNonneg : Score → Prop
  | .OyaTsumo x => 0 ≤ x
  | .KoTsumo ko oya => 0 ≤ ko ∧ 0 ≤ oya
  | .Ron x => 0 ≤ x

/-- Every payment amount of the score is below `2^31` (an `i32` value). -/
def scoreWithin : Score → Prop
  | .OyaTsumo x => x < 2 ^ 31
  | .KoTsumo ko oya => ko < 2 ^ 31 ∧ oya < 2 ^ 31
  | .Ron x => x < 2 ^ 31

end Tenhou

namespace Mjlog

/-! ## mjlog/src/model.rs -/

/-- `Hai` from model.rs: tiles numbered 0–135; red fives are 16, 52, 88. -/
structure Hai where
  val : Nat
deriving DecidableEq

/-- `Hai::new` from model.rs. -/
def Hai.new (x : Nat) : Hai := ⟨x⟩

/-- `Hai::to_u8` from model.rs. -/
def Hai.to_u8 (h : Hai) : Nat := h.val

/-- `Hai::is_number5` from model.rs. -/
def Hai.is_number5 (h : Hai) : Bool :=
  let pict_index := h.val / 4
  let pict_type := pict_index / 9
  let number := (pict_index % 9) + 1
  pict_type ≤ 2 && number = 5

/-- `Player` from model.rs. -/
structure Player where
  val : Nat
deriving DecidableEq

/-- `Player::new` from model.rs. -/
def Player.new (x : Nat) : Player := ⟨x⟩

/-- `Player::to_u8` from model.rs. -/
def Player.to_u8 (p : Player) : Nat := p.val

/-- `Direction` from mjlog model.rs, in source declaration (discriminant)
order: self, right, across, left. -/
inductive Direction where
  | SelfSeat
  | Shimocha
  | Toimen
  | Kamicha
deriving DecidableEq

/-- `Direction::from_u8` (derived `FromPrimitive` in the source). -/
def Direction.from_u8 : Nat → Option Direction
  | 0 => some .SelfSeat
  | 1 => some .Shimocha
  | 2 => some .Toimen
  | 3 => some .Kamicha
  | _ => none

/-- `TenhouRoom` from model.rs. -/
inductive TenhouRoom where
  | Ippan
  | Joukyu
  | Tokujou
  | Houou
deriving DecidableEq

/-- `TenhouRank` from model.rs. -/
inductive TenhouRank where
  | Newcomer
  | Kyu9 | Kyu8 | Kyu7 | Kyu6 | Kyu5 | Kyu4 | Kyu3 | Kyu2 | Kyu1
  | Dan1 | Dan2 | Dan3 | Dan4 | Dan5 | Dan6 | Dan7 | Dan8 | Dan9 | Dan10
  | Tenhou
deriving DecidableEq

/-- Discriminant of `TenhouRank` (`*dan as usize` in the source). -/
def TenhouRank.toNat : TenhouRank → Nat
  | .Newcomer => 0
  | .Kyu9 => 1
  | .Kyu8 => 2
  | .Kyu7 => 3
  | .Kyu6 => 4
  | .Kyu5 => 5
  | .Kyu4 => 6
  | .Kyu3 => 7
  | .Kyu2 => 8
  | .Kyu1 => 9
  | .Dan1 => 10
  | .Dan2 => 11
  | .Dan3 => 12
  | .Dan4 => 13
  | .Dan5 => 14
  | .Dan6 => 15
  | .Dan7 => 16
  | .Dan8 => 17
  | .Dan9 => 18
  | .Dan10 => 19
  | .Tenhou => 20

/-- `GameSettings` from model.rs. -/
structure GameSettings where
  vs_human : Bool
  no_red : Bool
  no_kuitan : Bool
  hanchan : Bool
  sanma : Bool
  soku : Bool
  room : TenhouRoom
deriving DecidableEq

/-- `InitSeed` from model.rs. -/
structure InitSeed where
  kyoku : Nat
  honba : Nat
  kyoutaku : Nat
  dice : Nat × Nat
  dora_hyouji : Hai
deriving DecidableEq

/-- `Meld` from model.rs. -/
inductive Meld where
  | Chii (combination : Hai × Hai × Hai) (called_position : Nat)
  | Pon (dir : Direction) (combination : Hai × Hai × Hai) (called : Hai) (unused : Hai)
  | Kakan (dir : Direction) (combination : Hai × Hai × Hai) (called : Hai) (added : Hai)
  | Daiminkan (dir : Direction) (hai : Hai)
  | Ankan (hai : Hai)
deriving DecidableEq

/-- `ExtraRyuukyokuReason` from mjlog model.rs. -/
inductive ExtraRyuukyokuReason where
  | KyuusyuKyuuhai
  | SuuchaRiichi
  | SanchaHoura
  | SuukanSanra
  | SuufuuRenda
  | NagashiMangan
deriving DecidableEq

/-- `ScoreRank` from mjlog model.rs. -/
inductive ScoreRank where
  | Normal
  | Mangan
  | Haneman
  | Baiman
  | Sanbaiman
  | Yakuman
deriving DecidableEq

/-- `Yaku` from mjlog model.rs. -/
inductive Yaku where
  | MenzenTsumo | Riichi | Ippatsu | Chankan | Rinshankaihou | HaiteiTsumo
  | HouteiRon | Pinfu | Tanyao | Iipeikou
  | PlayerWindTon | PlayerWindNan | PlayerWindSha | PlayerWindPei
  | FieldWindTon | FieldWindNan | FieldWindSha | FieldWindPei
  | YakuhaiHaku | YakuhaiHatsu | YakuhaiChun
  | DoubleRiichi | Chiitoitsu | Chanta | Ikkitsuukan | SansyokuDoujun
  | SanshokuDoukou | Sankantsu | Toitoi | Sanannkou | Shousangen | Honroutou
  | Ryanpeikou | Junchan | Honiisou | Chiniisou | Renhou | Tenhou | Chiihou
  | Daisangen | Suuankou | SuuankouTanki | Tsuuiisou | Ryuuiisou | Chinroutou
  | Tyuurenpoutou | Tyuurenpoutou9 | Kokushimusou | Kokushimusou13
  | Daisuushii | Syousuushii | Suukantsu | Dora | UraDora | AkaDora
deriving DecidableEq

/-- `ActionSHUFFLE` from model.rs. -/
structure ActionSHUFFLE where
  seed : String
deriving DecidableEq

/-- `ActionGO` from model.rs. -/
structure ActionGO where
  settings : GameSettings
  lobby : Nat
deriving DecidableEq

/-- `ActionUN1` from model.rs. -/
structure ActionUN1 where
  names : List String
  dan : List TenhouRank
  rate : List F64
  sx : List String
deriving DecidableEq

/-- `ActionUN2` from model.rs. -/
structure ActionUN2 where
  who : Player
  name : String
deriving DecidableEq

/-- `ActionBYE` from model.rs. -/
structure ActionBYE where
  who : Player
deriving DecidableEq

/-- `ActionTAIKYOKU` from model.rs. -/
structure ActionTAIKYOKU where
  oya : Player
deriving DecidableEq

/-- `ActionINIT` from model.rs. -/
structure ActionINIT where
  seed : InitSeed
  ten : List Int
  oya : Player
  hai : List (List Hai)
deriving DecidableEq

/-- `ActionREACH1` from model.rs. -/
structure ActionREACH1 where
  who : Player
deriving DecidableEq

/-- `ActionREACH2` from model.rs. -/
structure ActionREACH2 where
  who : Player
  ten : List Int
deriving DecidableEq

/-- `ActionN` from model.rs. -/
structure ActionN where
  who : Player
  m : Meld
deriving DecidableEq

/-- `ActionDORA` from model.rs. -/
structure ActionDORA where
  hai : Hai
deriving DecidableEq

/-- `ActionAGARI` from model.rs. -/
structure ActionAGARI where
  honba : Nat
  kyoutaku : Nat
  hai : List Hai
  m : List Meld
  machi : Hai
  fu : Nat
  net_score : Nat
  score_rank : ScoreRank
  yaku : List (Yaku × Nat)
  yakuman : List Yaku
  dora_hai : List Hai
  dora_hai_ura : List Hai
  who : Player
  from_who : Player
  pao_who : Option Player
  before_points : List Int
  delta_points : List Int
  owari : Option (List Int × List F64)
deriving DecidableEq

/-- `ActionRYUUKYOKU` from model.rs. -/
structure ActionRYUUKYOKU where
  honba : Nat
  kyoutaku : Nat
  before_points : List Int
  delta_points : List Int
  hai0 : Option (List Hai)
  hai1 : Option (List Hai)
  hai2 : Option (List Hai)
  hai3 : Option (List Hai)
  reason : Option ExtraRyuukyokuReason
  owari : Option (List Int × List F64)
deriving DecidableEq

/-- `ActionDRAW` from model.rs. -/
structure ActionDRAW where
  who : Player
  hai : Hai
deriving DecidableEq

/-- `ActionDISCARD` from model.rs. -/
structure ActionDISCARD where
  who : Player
  hai : Hai
deriving DecidableEq

/-- `Action` from model.rs. -/
inductive Action where
  | SHUFFLE (x : ActionSHUFFLE)
  | GO (x : ActionGO)
  | UN1 (x : ActionUN1)
  | UN2 (x : ActionUN2)
  | BYE (x : ActionBYE)
  | TAIKYOKU (x : ActionTAIKYOKU)
  | INIT (x : ActionINIT)
  | REACH1 (x : ActionREACH1)
  | REACH2 (x : ActionREACH2)
  | N (x : ActionN)
  | DORA (x : ActionDORA)
  | AGARI (x : ActionAGARI)
  | RYUUKYOKU (x : ActionRYUUKYOKU)
  | DRAW (x : ActionDRAW)
  | DISCARD (x : ActionDISCARD)
deriving DecidableEq

set_option linter.dupNamespace false in
/-- `Mjlog` from model.rs (the source type deliberately shares the crate's
name). -/
structure Mjlog where
  ver : F64
  actions : List Action
deriving DecidableEq

/-- `ActionAGARI::is_tsumo` from model.rs. -/
def ActionAGARI.is_tsumo (v : ActionAGARI) : Bool := v.who = v.from_who

/-- `Action::as_go` from model.rs. -/
def Action.as_go : Action → Option ActionGO
  | .GO x => some x
  | _ => none

/-- `Action::as_un1` from model.rs. -/
def Action.as_un1 : Action → Option ActionUN1
  | .UN1 x => some x
  | _ => none

/-- `Action::as_init` from model.rs. -/
def Action.as_init : Action → Option ActionINIT
  | .INIT x => some x
  | _ => none

/-- `Action::as_dora` from model.rs. -/
def Action.as_dora : Action → Option ActionDORA
  | .DORA x => some x
  | _ => none

/-- `Action::as_agari` from model.rs. -/
def Action.as_agari : Action → Option ActionAGARI
  | .AGARI x => some x
  | _ => none

/-- `Action::as_ryuukyoku` from model.rs. -/
def Action.as_ryuukyoku : Action → Option ActionRYUUKYOKU
  | .RYUUKYOKU x => some x
  | _ => none

/-- `Action::is_go` from model.rs. -/
def Action.is_go (a : Action) : Bool := a.as_go.isSome

/-- `Action::is_un1` from model.rs. -/
def Action.is_un1 (a : Action) : Bool := a.as_un1.isSome

/-- `Action::is_init` from model.rs. -/
def Action.is_init (a : Action) : Bool := a.as_init.isSome

/-- `Action::is_agari` from model.rs. -/
def Action.is_agari (a : Action) : Bool := a.as_agari.isSome

/-- `Action::is_ryuukyoku` from model.rs. -/
def Action.is_ryuukyoku (a : Action) : Bool := a.as_ryuukyoku.isSome

/-! ## mjlog/src/parser.rs -/

/-- `MjlogError` from parser.rs.  The first three constructors wrap
document-layer (XML) errors whose payloads are outside the embedded core
and are therefore elided. -/
inductive MjlogError where
  | XmlError
  | XmlInvalidAttribute
  | ObjectParseError
  | ParseError (s : String)
  | InvalidRyuukyokuReason (s : String)
  | InvalidTenhouRank (s : String)
  | AttributeNotFound (s : String)
  | VersionNotDefined
  | InvalidReachStep (x : Nat)
  | InvalidNameNum (x : Nat)
  | InvalidBaLength (x : Nat)
  | InvalidTenLength (x : Nat)
  | InvalidYakuNum (x : Nat)
  | InvalidScoreRank (x : Nat)
  | InvalidOwari
  | UnexpectedPI
  | UnexpectedCData
  | UnexpectedText
  | UnexpectedPeiNuki
  | UnexpectedEof
  | UnexpectedTag (s : String)
deriving DecidableEq

/-- `conv_meld_from_u16` from parser.rs.  `m` is a `u16` field.  The
source's `Direction::from_u8(..).unwrap()` always succeeds because
`m & 3 < 4`; `getD` is its total rendering. -/
def conv_meld_from_u16 (m : Nat) : Except MjlogError Meld :=
  let dir := (Direction.from_u8 (m &&& 3)).getD .SelfSeat
  if m &&& 0x04 ≠ 0 then
    -- Chii
    let pattern := (m &&& 0xfc00) >>> 10
    let called_position := pattern % 3
    let min_number := (pattern / 3) % 7
    let kind := (pattern / 3) / 7
    let offset_min := (m &&& 0x0018) >>> 3
    let offset_mid := (m &&& 0x0060) >>> 5
    let offset_max := (m &&& 0x0180) >>> 7
    let pict_type := kind * 9 + min_number
    let base := pict_type * 4
    let h_min := base + offset_min
    let h_mid := base + offset_mid + 4
    let h_max := base + offset_max + 8
    .ok (.Chii (Hai.new h_min, Hai.new h_mid, Hai.new h_max) called_position)
  else if (m &&& 0x08 ≠ 0) ∨ (m &&& 0x10 ≠ 0) then
    -- Pon (0x08) / Kakan (0x10)
    let pattern := (m &&& 0xfe00) >>> 9
    let unused_hai_offset := (m &&& 0x60) >>> 5
    let called_index := pattern % 3
    let pict_type := pattern / 3
    let base := pict_type * 4
    let a0 := Hai.new base
    let a1 := Hai.new (base + 1)
    let a2 := Hai.new (base + 2)
    let a3 := Hai.new (base + 3)
    -- same_pict_hais.swap(3, unused_hai_offset); the offset is 2 bits wide
    let (s0, s1, s2, s3) :=
      match unused_hai_offset with
      | 0 => (a3, a1, a2, a0)
      | 1 => (a0, a3, a2, a1)
      | 2 => (a0, a1, a3, a2)
      | _ => (a0, a1, a2, a3)
    let combination := (s0, s1, s2)
    let unused_hai := s3
    let called_hai :=
      match called_index with
      | 0 => s0
      | 1 => s1
      | _ => s2
    if m &&& 0x10 ≠ 0 then
      .ok (.Kakan dir combination called_hai unused_hai)
    else
      .ok (.Pon dir combination called_hai unused_hai)
  else if m &&& 0x20 ≠ 0 then
    -- North seat-exchange call: not supported
    .error .UnexpectedPeiNuki
  else
    -- Daiminkan or Ankan
    let hai := Hai.new ((m &&& 0xff00) >>> 8)
    if dir = .SelfSeat then .ok (.Ankan hai)
    else .ok (.Daiminkan dir hai)

end Mjlog

namespace Conv

/-! ## mjlog2json-core/src/conv.rs -/

/-- `ConvError` from conv.rs, plus `panicE` modelling Rust panics
(`unwrap`, `assert!`, `panic!("unexpected")`, out-of-bounds indexing). -/
inductive ConvError where
  | MjlogError (e : Mjlog.MjlogError)
  | TenhouJsonError (k : Tenhou.TenhouJsonErrorKind)
  | NotFoundActionGO
  | NotFoundActionUN1
  | NotFoundTerminalAction
  | NotFoundRound
  | NotFoundFinalResult
  | InvalidRoundFormat
  | InvalidTileFormat
  | panicE
deriving DecidableEq

/-- The loop of `extract_round_indices` from conv.rs: walk the actions with
the current index, the pending round start and the accumulated intervals. -/
def eri_go : List Mjlog.Action → Nat → Option Nat → List (Nat × Nat) → List (Nat × Nat)
  | [], i, some s, acc => acc ++ [(s, i)]
  | [], _, none, acc => acc
  | a :: rest, i, start, acc =>
    if a.is_init then
      eri_go rest (i + 1) (some i)
        (match start with
         | some s => acc ++ [(s, i)]
         | none => acc)
    else eri_go rest (i + 1) start acc

/-- `extract_round_indices` from conv.rs. -/
def extract_round_indices (actions : List Mjlog.Action) : List (Nat × Nat) :=
  eri_go actions 0 none []

/-- The final-standing payload carried by a terminal action
(`owari` field of AGARI/RYUUKYOKU). -/
def Action.owari? : Mjlog.Action → Option (List Int × List F64)
  | .AGARI v => v.owari
  | .RYUUKYOKU v => v.owari
  | _ => none

/-- The backward loop of `find_final_result` from conv.rs, already applied
to the reversed action list. -/
def find_final_result_core : List Mjlog.Action → Except ConvError (List Int × List F64)
  | [] => .error .NotFoundFinalResult
  | a :: rest =>
    match a with
    | .AGARI v =>
      match v.owari with
      | some x => .ok x
      | none => .error .InvalidRoundFormat
    | .RYUUKYOKU v =>
      match v.owari with
      | some x => .ok x
      | none => .error .InvalidRoundFormat
    | _ => find_final_result_core rest

/-- `find_final_result` from conv.rs: scan from the last action backwards. -/
def find_final_result (actions : List Mjlog.Action) :
    Except ConvError (List Int × List F64) :=
  find_final_result_core actions.reverse

/-- `DAN_NAME` from conv.rs. -/
def DAN_NAME : List String :=
  ["新人", "９級", "８級", "７級", "６級", "５級", "４級", "３級", "２級", "１級",
   "初段", "二段", "三段", "四段", "五段", "六段", "七段", "八段", "九段", "十段", "天鳳"]

/-- `conv_dan` from conv.rs: the 21-entry table is total on `TenhouRank`. -/
def conv_dan (dan : Mjlog.TenhouRank) : String := DAN_NAME.getD dan.toNat ""

/-- `conv_tile_from_u8` from conv.rs. -/
def conv_tile_from_u8 (x : Nat) : Except ConvError Tenhou.Tile :=
  match Tenhou.Tile.from_u8 x with
  | some t => .ok t
  | none => .error .InvalidTileFormat

/-- `conv_hai_to_tile` from conv.rs. -/
def conv_hai_to_tile (hai : Mjlog.Hai) (red_enable : Bool) : Except ConvError Tenhou.Tile :=
  let hai_number := hai.to_u8
  if red_enable && hai_number = 16 then conv_tile_from_u8 51
  else if red_enable && hai_number = 52 then conv_tile_from_u8 52
  else if red_enable && hai_number = 88 then conv_tile_from_u8 53
  else
    let pict_order := hai_number / 4
    let pict_type := (pict_order / 9) + 1
    let pict_num := (pict_order % 9) + 1
    conv_tile_from_u8 (pict_type * 10 + pict_num)

/-- `get_dora_vec` from conv.rs. -/
def get_dora_vec (dora_hyouji : Mjlog.Hai) (mid_actions : List Mjlog.Action) :
    Except ConvError (List Tenhou.Tile) :=
  let dora_hais := dora_hyouji :: (mid_actions.filterMap Mjlog.Action.as_dora).map (·.hai)
  dora_hais.mapM (conv_hai_to_tile · true)

/-- `get_ura_dora` from conv.rs. -/
def get_ura_dora (end_action : Mjlog.Action) : Except ConvError (List Tenhou.Tile) :=
  match end_action with
  | .AGARI v => v.dora_hai_ura.mapM (conv_hai_to_tile · true)
  | .RYUUKYOKU _ => .ok []
  | _ => .error .panicE

/-- `get_ura_dora_vec` from conv.rs: first non-empty embedded ura-dora list. -/
def get_ura_dora_vec : List Mjlog.Action → Except ConvError (List Tenhou.Tile)
  | [] => .ok []
  | a :: rest => do
    let ura ← get_ura_dora a
    if ura ≠ [] then .ok ura else get_ura_dora_vec rest

/-- `conv_rule` from conv.rs. -/
def conv_rule (settings : Mjlog.GameSettings) : Except ConvError Tenhou.Rule :=
  let room_str :=
    match settings.room with
    | .Ippan => "般"
    | .Joukyu => "上"
    | .Tokujou => "特"
    | .Houou => "鳳"
  let hanchan_str := if settings.hanchan then "南" else "東"
  let aka_str := if settings.no_red then "" else "赤"
  let kuitan_str := if settings.no_kuitan then "" else "喰"
  let soku_str := if settings.soku then "速" else ""
  .ok { disp := room_str ++ hanchan_str ++ kuitan_str ++ aka_str ++ soku_str,
        aka53 := !settings.no_red, aka52 := !settings.no_red, aka51 := !settings.no_red }

/-- `conv_round_setting` from conv.rs (the source asserts the first action
is a round-init and unwraps it). -/
def conv_round_setting (actions : List Mjlog.Action) : Except ConvError Tenhou.RoundSettings :=
  match actions.head? with
  | some (.INIT init) =>
    let end_actions := actions.filter (fun x => x.is_agari || x.is_ryuukyoku)
    if end_actions = [] then .error .NotFoundTerminalAction
    else do
      let dora ← get_dora_vec init.seed.dora_hyouji actions
      let ura_dora ← get_ura_dora_vec end_actions
      .ok { kyoku := init.seed.kyoku, honba := init.seed.honba,
            kyoutaku := init.seed.kyoutaku,
            points := init.ten.map (· * 100), dora := dora, ura_dora := ura_dora }
  | _ => .error .panicE

/-- `conv_yaku` from conv.rs: the name-for-name map between the two `Yaku`
enums. -/
def conv_yaku : Mjlog.Yaku → Tenhou.Yaku
  | .MenzenTsumo => .MenzenTsumo
  | .Riichi => .Riichi
  | .Ippatsu => .Ippatsu
  | .Chankan => .Chankan
  | .Rinshankaihou => .Rinshankaihou
  | .HaiteiTsumo => .HaiteiTsumo
  | .HouteiRon => .HouteiRon
  | .Pinfu => .Pinfu
  | .Tanyao => .Tanyao
  | .Iipeikou => .Iipeikou
  | .PlayerWindTon => .PlayerWindTon
  | .PlayerWindNan => .PlayerWindNan
  | .PlayerWindSha => .PlayerWindSha
  | .PlayerWindPei => .PlayerWindPei
  | .FieldWindTon => .FieldWindTon
  | .FieldWindNan => .FieldWindNan
  | .FieldWindSha => .FieldWindSha
  | .FieldWindPei => .FieldWindPei
  | .YakuhaiHaku => .YakuhaiHaku
  | .YakuhaiHatsu => .YakuhaiHatsu
  | .YakuhaiChun => .YakuhaiChun
  | .DoubleRiichi => .DoubleRiichi
  | .Chiitoitsu => .Chiitoitsu
  | .Chanta => .Chanta
  | .Ikkitsuukan => .Ikkitsuukan
  | .SansyokuDoujun => .SansyokuDoujun
  | .SanshokuDoukou => .SanshokuDoukou
  | .Sankantsu => .Sankantsu
  | .Toitoi => .Toitoi
  | .Sanannkou => .Sanannkou
  | .Shousangen => .Shousangen
  | .Honroutou => .Honroutou
  | .Ryanpeikou => .Ryanpeikou
  | .Junchan => .Junchan
  | .Honiisou => .Honiisou
  | .Chiniisou => .Chiniisou
  | .Renhou => .Renhou
  | .Tenhou => .Tenhou
  | .Chiihou => .Chiihou
  | .Daisangen => .Daisangen
  | .Suuankou => .Suuankou
  | .SuuankouTanki => .SuuankouTanki
  | .Tsuuiisou => .Tsuuiisou
  | .Ryuuiisou => .Ryuuiisou
  | .Chinroutou => .Chinroutou
  | .Tyuurenpoutou => .Tyuurenpoutou
  | .Tyuurenpoutou9 => .Tyuurenpoutou9
  | .Kokushimusou => .Kokushimusou
  | .Kokushimusou13 => .Kokushimusou13
  | .Daisuushii => .Daisuushii
  | .Syousuushii => .Syousuushii
  | .Suukantsu => .Suukantsu
  | .Dora => .Dora
  | .UraDora => .UraDora
  | .AkaDora => .AkaDora

/-- `conv_extra_ryuukyoku_reason` from conv.rs. -/
def conv_extra_ryuukyoku_reason :
    Option Mjlog.ExtraRyuukyokuReason → Tenhou.ExtraRyuukyokuReason
  | some .KyuusyuKyuuhai => .KyuusyuKyuuhai
  | some .SuuchaRiichi => .SuuchaRiichi
  | some .SanchaHoura => .SanchaHoura
  | some .SuukanSanra => .SuukanSanra
  | some .SuufuuRenda => .SuufuuRenda
  | some .NagashiMangan => .NagashiMangan
  | none => .Ryuukyoku

/-- `is_not_ura_zero` from conv.rs. -/
def is_not_ura_zero : Tenhou.YakuPair → Bool
  | ⟨.UraDora, .Normal 0⟩ => false
  | _ => true

/-- `conv_ranked_score_normal` from conv.rs (`none` when the score table
panics on an invalid shift). -/
def conv_ranked_score_normal (v : Mjlog.ActionAGARI) (han : Nat) (oya : Mjlog.Player) :
    Option Tenhou.RankedScore :=
  if v.is_tsumo then
    if v.who = oya then Tenhou.get_oya_tsumo v.fu han else Tenhou.get_ko_tsumo v.fu han
  else
    if v.who = oya then Tenhou.get_oya_ron v.fu han else Tenhou.get_ko_ron v.fu han

/-- `conv_ranked_score_yakuman` from conv.rs. -/
def conv_ranked_score_yakuman (v : Mjlog.ActionAGARI) (num : Nat) (oya : Mjlog.Player) :
    Tenhou.RankedScore :=
  if v.is_tsumo then
    if v.who = oya then Tenhou.get_oya_tsumo_yakuman num else Tenhou.get_ko_tsumo_yakuman num
  else
    if v.who = oya then Tenhou.get_oya_ron_yakuman num else Tenhou.get_ko_ron_yakuman num

/-- `conv_yaku_vec` from conv.rs. -/
def conv_yaku_vec (vs : List (Mjlog.Yaku × Nat)) : List Tenhou.YakuPair :=
  (vs.map (fun p => Tenhou.YakuPair.mk (conv_yaku p.1) (.Normal p.2))).filter is_not_ura_zero

/-- `conv_yakuman_vec` from conv.rs. -/
def conv_yakuman_vec (vs : List Mjlog.Yaku) : List Tenhou.YakuPair :=
  vs.map (fun y => Tenhou.YakuPair.mk (conv_yaku y) (.Yakuman 1))

/-- `conv_agari` from conv.rs (`panicE` models its `panic!("unexpected")`
when neither yaku nor yakuman are present, and the score-table shift
panic). -/
def conv_agari (v : Mjlog.ActionAGARI) (oya : Mjlog.Player) : Except ConvError Tenhou.Agari :=
  let delta_points := v.delta_points.map (· * 100)
  let who := v.who.to_u8
  let from_who := v.from_who.to_u8
  let pao_who :=
    match v.pao_who with
    | some w => w.to_u8
    | none => v.who.to_u8
  if v.yaku ≠ [] then
    let yaku := conv_yaku_vec v.yaku
    let han := yaku.foldl (fun sum p => sum + p.level.get_number) 0
    match conv_ranked_score_normal v han oya with
    | some ranked_score =>
      .ok { delta_points := delta_points, who := who, from_who := from_who,
            pao_who := pao_who, ranked_score := ranked_score, yaku := yaku }
    | none => .error .panicE
  else if v.yakuman ≠ [] then
    let yaku := conv_yakuman_vec v.yakuman
    let num := yaku.foldl (fun sum p => sum + p.level.get_number) 0
    .ok { delta_points := delta_points, who := who, from_who := from_who,
          pao_who := pao_who, ranked_score := conv_ranked_score_yakuman v num oya,
          yaku := yaku }
  else .error .panicE

/-- `conv_agari_vec` from conv.rs. -/
def conv_agari_vec (vs : List Mjlog.ActionAGARI) (oya : Mjlog.Player) :
    Except ConvError (List Tenhou.Agari) :=
  vs.mapM (conv_agari · oya)

/-- `conv_round_result_from_agari` from conv.rs. -/
def conv_round_result_from_agari (vs : List Mjlog.ActionAGARI) (oya : Mjlog.Player) :
    Except ConvError Tenhou.RoundResult := do
  let agari_vec ← conv_agari_vec vs oya
  .ok (.Agari agari_vec)

/-- `conv_delta_points_ryuukyoku` from conv.rs. -/
def conv_delta_points_ryuukyoku (v : Mjlog.ActionRYUUKYOKU) : List Int :=
  if v.delta_points.any (· ≠ 0) then v.delta_points.map (· * 100) else []

/-- `conv_round_result_from_ryuukyoku` from conv.rs. -/
def conv_round_result_from_ryuukyoku (v : Mjlog.ActionRYUUKYOKU) :
    Except ConvError Tenhou.RoundResult :=
  let reason :=
    match conv_extra_ryuukyoku_reason v.reason with
    | .Ryuukyoku =>
      match v.hai0.isSome, v.hai1.isSome, v.hai2.isSome, v.hai3.isSome with
      | true, true, true, true => Tenhou.ExtraRyuukyokuReason.TenpaiEverybody
      | false, false, false, false => Tenhou.ExtraRyuukyokuReason.TenpaiNobody
      | _, _, _, _ => Tenhou.ExtraRyuukyokuReason.Ryuukyoku
    | x => x
  .ok (.Ryuukyoku reason (conv_delta_points_ryuukyoku v))

/-- `conv_round_result` from conv.rs (the source unwraps `actions[0]` as a
round-init first; a single draw action wins over any win actions). -/
def conv_round_result (actions : List Mjlog.Action) : Except ConvError Tenhou.RoundResult :=
  match actions.head? with
  | some (.INIT init) =>
    let ryuukyoku_actions := actions.filterMap Mjlog.Action.as_ryuukyoku
    match ryuukyoku_actions with
    | [r] => conv_round_result_from_ryuukyoku r
    | _ =>
      let agari_actions := actions.filterMap Mjlog.Action.as_agari
      if agari_actions ≠ [] then conv_round_result_from_agari agari_actions init.oya
      else .error .InvalidRoundFormat
  | _ => .error .panicE

/-- `conv_tiles` from conv.rs. -/
def conv_tiles (xs : List Mjlog.Hai) : Except ConvError (List Tenhou.Tile) :=
  xs.mapM (conv_hai_to_tile · true)

/-- `get_initial_hand_order` from conv.rs. -/
def get_initial_hand_order (t : Tenhou.Tile) : Nat :=
  match t.to_u8 with
  | 51 => 151
  | 52 => 251
  | 53 => 351
  | x => x * 10

/-- `is_valid_player_action` from conv.rs. -/
def is_valid_player_action (action : Mjlog.Action) (target_player : Mjlog.Player) : Bool :=
  match action with
  | .DRAW x => x.who = target_player
  | .DISCARD x => x.who = target_player
  | .REACH1 x => x.who = target_player
  | .N x => x.who = target_player
  | _ => false

/-- `conv_dir` from conv.rs. -/
def conv_dir : Mjlog.Direction → Tenhou.Direction
  | .SelfSeat => .SelfSeat
  | .Shimocha => .Shimocha
  | .Kamicha => .Kamicha
  | .Toimen => .Toimen

/-- The mutable state of the `replay_actions` loop in conv.rs. -/
structure ReplayState where
  incoming : List Tenhou.IncomingTile
  outgoing : List Tenhou.OutgoingTile
  reach_declared : Bool
  last_draw : Option Mjlog.Hai
deriving DecidableEq

/-- One iteration of the `replay_actions` loop in conv.rs. -/
def replay_step (st : ReplayState) (a : Mjlog.Action) : Except ConvError ReplayState :=
  match a with
  | .DRAW x => do
    let tile ← conv_hai_to_tile x.hai true
    .ok { st with incoming := st.incoming ++ [.Tsumo tile], last_draw := some x.hai }
  | .DISCARD x =>
    match st.last_draw with
    | some h =>
      if h = x.hai then
        let out := if st.reach_declared then Tenhou.OutgoingTile.TsumogiriRiichi
                   else Tenhou.OutgoingTile.Tsumogiri
        .ok { st with outgoing := st.outgoing ++ [out],
                      reach_declared := false, last_draw := none }
      else do
        let tile ← conv_hai_to_tile x.hai true
        let out := if st.reach_declared then Tenhou.OutgoingTile.Riichi tile
                   else Tenhou.OutgoingTile.Discard tile
        .ok { st with outgoing := st.outgoing ++ [out],
                      reach_declared := false, last_draw := none }
    | none => do
      let tile ← conv_hai_to_tile x.hai true
      let out := if st.reach_declared then Tenhou.OutgoingTile.Riichi tile
                 else Tenhou.OutgoingTile.Discard tile
      .ok { st with outgoing := st.outgoing ++ [out],
                    reach_declared := false, last_draw := none }
  | .REACH1 _ => .ok { st with reach_declared := true }
  | .N x =>
    match x.m with
    | .Chii (c0, c1, c2) called_position => do
      let orders ←
        match called_position with
        | 0 => Except.ok (c0, c1, c2)
        | 1 => Except.ok (c1, c0, c2)
        | 2 => Except.ok (c2, c0, c1)
        | _ => Except.error ConvError.panicE
      let t0 ← conv_hai_to_tile orders.1 true
      let t1 ← conv_hai_to_tile orders.2.1 true
      let t2 ← conv_hai_to_tile orders.2.2 true
      .ok { st with incoming := st.incoming ++ [.Chii (t0, t1, t2)] }
    | .Pon src_dir _combination called unused =>
      let dir := conv_dir src_dir
      if called.is_number5 then do
        let called_tile ← conv_hai_to_tile called true
        let unused_tile ← conv_hai_to_tile unused true
        let tile := called_tile.to_black
        if unused_tile.is_red then
          .ok { st with incoming := st.incoming ++ [.Pon (tile, tile, tile) dir] }
        else if called_tile.is_red then
          match dir with
          | .Kamicha =>
            .ok { st with incoming := st.incoming ++ [.Pon (called_tile, tile, tile) dir] }
          | .Toimen =>
            .ok { st with incoming := st.incoming ++ [.Pon (tile, called_tile, tile) dir] }
          | .Shimocha =>
            .ok { st with incoming := st.incoming ++ [.Pon (tile, tile, called_tile) dir] }
          | .SelfSeat => .error .panicE
        else
          match dir with
          | .Shimocha =>
            .ok { st with incoming := st.incoming ++ [.Pon (tile, tile.to_red, tile) dir] }
          | _ =>
            .ok { st with incoming := st.incoming ++ [.Pon (tile, tile, tile.to_red) dir] }
      else do
        let tile ← conv_hai_to_tile called true
        .ok { st with incoming := st.incoming ++ [.Pon (tile, tile, tile) dir] }
    | .Kakan src_dir _combination called added =>
      let dir := conv_dir src_dir
      if called.is_number5 then do
        let called_tile ← conv_hai_to_tile called true
        let added_tile ← conv_hai_to_tile added true
        let tile := called_tile.to_black
        if added_tile.is_red then
          .ok { st with outgoing :=
                  st.outgoing ++ [.Kakan (tile, tile, tile) dir added_tile] }
        else if called_tile.is_red then
          match dir with
          | .Kamicha =>
            .ok { st with outgoing :=
                    st.outgoing ++ [.Kakan (called_tile, tile, tile) dir added_tile] }
          | .Toimen =>
            .ok { st with outgoing :=
                    st.outgoing ++ [.Kakan (tile, called_tile, tile) dir added_tile] }
          | .Shimocha =>
            .ok { st with outgoing :=
                    st.outgoing ++ [.Kakan (tile, tile, called_tile) dir added_tile] }
          | .SelfSeat => .error .panicE
        else
          match dir with
          | .Shimocha =>
            .ok { st with outgoing :=
                    st.outgoing ++ [.Kakan (tile, tile.to_red, tile) dir added_tile] }
          | _ =>
            .ok { st with outgoing :=
                    st.outgoing ++ [.Kakan (tile, tile, tile.to_red) dir added_tile] }
      else do
        let tile ← conv_hai_to_tile called true
        .ok { st with outgoing := st.outgoing ++ [.Kakan (tile, tile, tile) dir tile] }
    | .Daiminkan src_dir hai =>
      let dir := conv_dir src_dir
      if hai.is_number5 then do
        let called_tile ← conv_hai_to_tile hai true
        let tile := called_tile.to_black
        let combination ←
          if called_tile.is_red then
            match dir with
            | .Kamicha => Except.ok (called_tile, tile, tile, tile)
            | .Toimen => Except.ok (tile, called_tile, tile, tile)
            | .Shimocha => Except.ok (tile, tile, tile, called_tile)
            | .SelfSeat => Except.error ConvError.panicE
          else
            match dir with
            | .Shimocha => Except.ok (tile, tile, tile.to_red, tile)
            | _ => Except.ok (tile, tile, tile, tile.to_red)
        .ok { st with incoming := st.incoming ++ [.Daiminkan combination dir],
                      outgoing := st.outgoing ++ [.Dummy] }
      else do
        let tile ← conv_hai_to_tile hai true
        .ok { st with incoming := st.incoming ++ [.Daiminkan (tile, tile, tile, tile) dir],
                      outgoing := st.outgoing ++ [.Dummy] }
    | .Ankan hai => do
      let t ← conv_hai_to_tile hai true
      .ok { st with outgoing := st.outgoing ++ [.Ankan t.to_red] }
  | _ => .error .panicE

/-- The trailing-filler trim of `replay_actions`: pop while the last
outgoing entry is the `Dummy` placeholder. -/
def trim_trailing_dummy (l : List Tenhou.OutgoingTile) : List Tenhou.OutgoingTile :=
  (l.reverse.dropWhile (fun t => t = Tenhou.OutgoingTile.Dummy)).reverse

/-- `replay_actions` from conv.rs. -/
def replay_actions (actions : List Mjlog.Action) :
    Except ConvError (List Tenhou.IncomingTile × List Tenhou.OutgoingTile) := do
  let st ← actions.foldlM replay_step ⟨[], [], false, none⟩
  .ok (st.incoming, trim_trailing_dummy st.outgoing)

/-- `conv_round_players` from conv.rs. -/
def conv_round_players (actions : List Mjlog.Action) :
    Except ConvError (List Tenhou.RoundPlayer) :=
  match actions.head? with
  | some (.INIT init) =>
    init.hai.enum.mapM (fun p => do
      let hand0 ← conv_tiles p.2
      let hand := hand0.mergeSort (fun a b =>
        decide (get_initial_hand_order a ≤ get_initial_hand_order b))
      let player_actions := actions.filter (fun x =>
        is_valid_player_action x (Mjlog.Player.new p.1))
      let (incoming, outgoing) ← replay_actions player_actions
      .ok (Tenhou.RoundPlayer.mk hand incoming outgoing))
  | _ => .error .panicE

/-- `conv_round` from conv.rs. -/
def conv_round (actions : List Mjlog.Action) : Except ConvError Tenhou.Round := do
  let settings ← conv_round_setting actions
  let players ← conv_round_players actions
  let result ← conv_round_result actions
  .ok { settings := settings, players := players, result := result }

/-- The `actions[start..end]` slice. -/
def slice (l : List Mjlog.Action) (se : Nat × Nat) : List Mjlog.Action :=
  (l.drop se.1).take (se.2 - se.1)

/-- `conv_rounds` from conv.rs. -/
def conv_rounds (actions : List Mjlog.Action) (indices : List (Nat × Nat)) :
    Except ConvError (List Tenhou.Round) :=
  indices.mapM (fun se => conv_round (slice actions se))

/-- The per-round walk of `conv_connections` with its step counter. -/
def connections_in_round : List Mjlog.Action → Int → Nat → List Tenhou.Connection
  | [], _, _ => []
  | a :: rest, log_index, step =>
    match a with
    | .BYE bye =>
      ⟨0, log_index, bye.who.to_u8, step⟩ :: connections_in_round rest log_index step
    | .UN2 un2 =>
      ⟨1, log_index, un2.who.to_u8, step⟩ :: connections_in_round rest log_index step
    | .N _ => connections_in_round rest log_index (step + 1)
    | .DRAW _ => connections_in_round rest log_index (step + 1)
    | .DISCARD _ => connections_in_round rest log_index (step + 1)
    | _ => connections_in_round rest log_index step

/-- `conv_connections` from conv.rs (`indices[0]` would panic on an empty
index list; callers guarantee it is non-empty). -/
def conv_connections (actions : List Mjlog.Action) (indices : List (Nat × Nat)) :
    Except ConvError (List Tenhou.Connection) :=
  match indices.head? with
  | none => .error .panicE
  | some first =>
    let pre := (actions.take first.1).filterMap (fun a =>
      match a with
      | .BYE bye => some (Tenhou.Connection.mk 0 (-1) bye.who.to_u8 0)
      | .UN2 un2 => some (Tenhou.Connection.mk 1 (-1) un2.who.to_u8 0)
      | _ => none)
    let rounds := (indices.enum.map (fun p =>
      connections_in_round (slice actions p.2) (Int.ofNat p.1) 0)).flatten
    .ok (pre ++ rounds)

/-- `conv_to_tenhou_json` from conv.rs. -/
def conv_to_tenhou_json (log : Mjlog.Mjlog) : Except ConvError Tenhou.TenhouJson :=
  match log.actions.find? Mjlog.Action.is_go with
  | some (.GO action_go) =>
    match log.actions.find? Mjlog.Action.is_un1 with
    | some (.UN1 action_un1) =>
      let round_indices := extract_round_indices log.actions
      if round_indices = [] then .error .NotFoundRound
      else do
        let final_result ← find_final_result log.actions
        let rounds ← conv_rounds log.actions round_indices
        let connections ← conv_connections log.actions round_indices
        let rule ← conv_rule action_go.settings
        .ok { ver := ⟨"2.3"⟩, reference := "", rounds := rounds,
              connections := connections, ratingc := "PF4", rule := rule,
              lobby := action_go.lobby, dan := action_un1.dan.map conv_dan,
              rate := action_un1.rate, sx := action_un1.sx,
              final_points := final_result.1.map (· * 100),
              final_results := final_result.2, names := action_un1.names }
    | _ => .error .NotFoundActionUN1
  | _ => .error .NotFoundActionGO

/-! ## Statement-side helpers for the converter claims -/

/-- Positions (indices) of the round-init actions, starting at offset `i`. -/
def initPositionsFrom : List Mjlog.Action → Nat → List Nat
  | [], _ => []
  | a :: rest, i =>
    if a.is_init then i :: initPositionsFrom rest (i + 1)
    else initPositionsFrom rest (i + 1)

/-- A win or draw (terminal) action. -/
def isTerminal (a : Mjlog.Action) : Bool := a.is_agari || a.is_ryuukyoku

end Conv

/-! ## Concrete sample values used by witnesses and counterexamples -/

/-- A concrete `GameSettings` value. -/
def sampleSettings : Mjlog.GameSettings :=
  { vs_human := true, no_red := false, no_kuitan := false, hanchan := true,
    sanma := false, soku := false, room := .Ippan }

/-- A concrete `ActionGO` value. -/
def sampleGO : Mjlog.ActionGO := { settings := sampleSettings, lobby := 0 }

/-- A concrete `ActionUN1` value. -/
def sampleUN1 : Mjlog.ActionUN1 :=
  { names := ["a", "b", "c", "d"],
    dan := [.Newcomer, .Newcomer, .Newcomer, .Newcomer],
    rate := [⟨"1500"⟩, ⟨"1500"⟩, ⟨"1500"⟩, ⟨"1500"⟩],
    sx := ["M", "M", "M", "M"] }

/-- A concrete `ActionINIT` value. -/
def sampleINIT : Mjlog.ActionINIT :=
  { seed := { kyoku := 0, honba := 0, kyoutaku := 0, dice := (1, 2), dora_hyouji := ⟨4⟩ },
    ten := [250, 250, 250, 250], oya := ⟨0⟩, hai := [[], [], [], []] }

/-- A concrete `ActionAGARI` whose `owari` carries a final-standing payload. -/
def sampleAgariOwari : Mjlog.ActionAGARI :=
  { honba := 0, kyoutaku := 0, hai := [], m := [], machi := ⟨0⟩, fu := 30,
    net_score := 0, score_rank := .Normal, yaku := [(.Riichi, 1)], yakuman := [],
    dora_hai := [], dora_hai_ura := [], who := ⟨0⟩, from_who := ⟨1⟩,
    pao_who := none, before_points := [], delta_points := [],
    owari := some ([], []) }

/-- A concrete `ActionAGARI` with a yaku list and no final-standing payload. -/
def sampleAgariYaku : Mjlog.ActionAGARI :=
  { honba := 0, kyoutaku := 0, hai := [], m := [], machi := ⟨0⟩, fu := 30,
    net_score := 0, score_rank := .Normal, yaku := [(.Riichi, 1)], yakuman := [],
    dora_hai := [], dora_hai_ura := [], who := ⟨0⟩, from_who := ⟨1⟩,
    pao_who := none, before_points := [], delta_points := [], owari := none }

/-- A concrete `ActionRYUUKYOKU` with no payload, no reason, no hands. -/
def sampleRyuukyokuNoOwari : Mjlog.ActionRYUUKYOKU :=
  { honba := 0, kyoutaku := 0, before_points := [], delta_points := [],
    hai0 := none, hai1 := none, hai2 := none, hai3 := none,
    reason := none, owari := none }

/-- A `Pon` of the four 5m copies where the unused copy is the red one
(`Hai 16`), called from the left seat. -/
def ponRedUnusedMeld : Mjlog.Meld := .Pon .Kamicha (⟨17⟩, ⟨18⟩, ⟨19⟩) ⟨17⟩ ⟨16⟩

/-- The empty replay state. -/
def emptyReplayState : Conv.ReplayState := ⟨[], [], false, none⟩

/-- The replay state after a single non-five Daiminkan from the left. -/
def daiminkanReplayState : Conv.ReplayState :=
  ⟨[.Daiminkan (⟨11⟩, ⟨11⟩, ⟨11⟩, ⟨11⟩) .Kamicha], [.Dummy], false, none⟩

section ScoreSanity

-- Sanity checks mirroring the unit tests in calc.rs and score.rs.
example : Tenhou.get_ko_ron 30 4 = some ⟨.Normal 30 4, .Ron 7700⟩ := by decide
example : Tenhou.get_ko_ron 40 3 = some ⟨.Normal 40 3, .Ron 5200⟩ := by decide
example : Tenhou.get_ko_ron 30 5 = some ⟨.Mangan, .Ron 8000⟩ := by decide
example : Tenhou.get_ko_tsumo 20 3 = some ⟨.Normal 20 3, .KoTsumo 700 1300⟩ := by decide
example : Tenhou.get_ko_tsumo 30 4 = some ⟨.Normal 30 4, .KoTsumo 2000 3900⟩ := by decide
example :
    Tenhou.parse_exact_ranked_score ("40符3飜7700点".toList) =
      some ⟨.Normal 40 3, .Ron 7700⟩ := by decide
example :
    Tenhou.parse_exact_ranked_score ("満貫8000点".toList) =
      some ⟨.Mangan, .Ron 8000⟩ := by decide
example : Tenhou.parse_exact_ranked_score ("40符3飜7700点 ".toList) = none := by decide
example :
    Tenhou.parse_exact_ranked_score ("跳満3000-6000点".toList) =
      some ⟨.Haneman, .KoTsumo 3000 6000⟩ := by decide
example :
    Tenhou.parse_exact_ranked_score ("満貫4000点∀".toList) =
      some ⟨.Mangan, .OyaTsumo 4000⟩ := by decide
example :
    Tenhou.RankedScore.displayChars ⟨.Normal 30 4, .Ron 7700⟩ =
      "30符4飜7700点".toList := by decide

end ScoreSanity

/-! ## Arithmetic lemmas about the 32-bit model -/

theorem wrap32_eq_of_range {x : Int} (h0 : -2 ^ 31 ≤ x) (h1 : x < 2 ^ 31) :
    wrap32 x = x := by
  unfold wrap32
  have h : (0:Int) ≤ x + 2 ^ 31 := by omega
  have h2 : x + 2 ^ 31 < 2 ^ 32 := by omega
  rw [Int.emod_eq_of_lt h h2]
  omega

theorem wrap32_nonneg_eq {x : Int} (h0 : 0 ≤ x) (h1 : x < 2 ^ 31) : wrap32 x = x :=
  wrap32_eq_of_range (by omega) h1

theorem wrap32_lt (x : Int) : wrap32 x < 2 ^ 31 := by
  unfold wrap32
  have h := Int.emod_lt_of_pos (x + 2 ^ 31) (b := 2 ^ 32) (by norm_num)
  omega

theorem wrap32_le (x : Int) : -2 ^ 31 ≤ wrap32 x := by
  unfold wrap32
  have h := Int.emod_nonneg (x + 2 ^ 31) (b := 2 ^ 32) (by norm_num)
  omega

namespace Tenhou

/-! ## Decimal printing reads back -/

theorem digitChar_isDigit {d : Nat} (h : d < 10) : (digitChar d).isDigit = true := by
  interval_cases d <;> decide

theorem digitChar_toNat {d : Nat} (h : d < 10) : (digitChar d).toNat = 48 + d := by
  interval_cases d <;> decide

/-- Shape of the fuelled digit emitter: enough fuel yields the digits of `n`
in front of the accumulator, and folding them back recovers `n`. -/
theorem natCharsCore_spec :
    ∀ (fuel n : Nat) (acc : List Char), n < fuel →
      ∃ pre, natCharsCore fuel n acc = pre ++ acc ∧ pre ≠ [] ∧
        (∀ c ∈ pre, c.isDigit = true) ∧
        ∀ a, pre.foldl (fun a c => 10 * a + (c.toNat - 48)) a = a * 10 ^ pre.length + n := by
  intro fuel
  induction fuel with
  | zero => intro n acc h; omega
  | succ fuel ih =>
    intro n acc h
    by_cases hn : n < 10
    · refine ⟨[digitChar n], ?_, by simp, ?_, ?_⟩
      · simp [natCharsCore, hn]
      · intro c hc; simp at hc; subst hc; exact digitChar_isDigit hn
      · intro a; simp [List.foldl, digitChar_toNat hn]; ring
    · have hd : n / 10 < fuel := by omega
      obtain ⟨pre, heq, hne, hdig, hfold⟩ := ih (n / 10) (digitChar (n % 10) :: acc) hd
      refine ⟨pre ++ [digitChar (n % 10)], ?_, by simp, ?_, ?_⟩
      · simp [natCharsCore, hn, heq]
      · intro c hc
        rcases List.mem_append.mp hc with h1 | h1
        · exact hdig c h1
        · simp at h1; subst h1; exact digitChar_isDigit (Nat.mod_lt _ (by omega))
      · intro a
        rw [List.foldl_append]
        have := hfold a
        simp only [List.foldl] at this ⊢
        rw [this, digitChar_toNat (Nat.mod_lt _ (by omega))]
        have hmod : 10 * (a * 10 ^ pre.length + n / 10) + (48 + n % 10 - 48) =
            a * 10 ^ (pre.length + 1) + (10 * (n / 10) + n % 10) := by ring_nf; omega
        rw [hmod, Nat.div_add_mod]
        simp [List.length_append]

theorem natChars_spec (n : Nat) :
    (∀ c ∈ natChars n, c.isDigit = true) ∧ natChars n ≠ [] ∧
      (natChars n).foldl (fun a c => 10 * a + (c.toNat - 48)) 0 = n := by
  obtain ⟨pre, heq, hne, hdig, hfold⟩ := natCharsCore_spec (n + 1) n [] (by omega)
  rw [natChars, heq, List.append_nil]
  exact ⟨hdig, hne, by simpa using hfold 0⟩

/-- Splitting `takeWhile`/`dropWhile` along an all-true block followed by a
suffix whose head is false. -/
theorem takeWhile_dropWhile_append (p : Char → Bool) :
    ∀ (pre rest : List Char), (∀ c ∈ pre, p c = true) →
      (∀ c, rest.head? = some c → p c = false) →
      (pre ++ rest).takeWhile p = pre ∧ (pre ++ rest).dropWhile p = rest := by
  intro pre
  induction pre with
  | nil =>
    intro rest _ hrest
    cases rest with
    | nil => simp
    | cons c tl =>
      have := hrest c (by simp)
      simp [List.takeWhile, List.dropWhile, this]
  | cons c tl ih =>
    intro rest hpre hrest
    have hc : p c = true := hpre c (by simp)
    have := ih rest (fun d hd => hpre d (by simp [hd])) hrest
    simp [List.takeWhile, List.dropWhile, hc, this.1, this.2]

/-- `parse_number` consumes exactly the printed digits of `n`. -/
theorem parse_number_natChars {bound n : Nat} (hb : n < bound) (rest : List Char)
    (hrest : ∀ c, rest.head? = some c → c.isDigit = false) :
    parse_number bound (natChars n ++ rest) = some (n, rest) := by
  obtain ⟨hdig, hne, hfold⟩ := natChars_spec n
  obtain ⟨htake, hdrop⟩ := takeWhile_dropWhile_append Char.isDigit (natChars n) rest hdig hrest
  simp [parse_number, htake, hdrop, hne, hfold, hb]

theorem parse_number_head_not_digit {bound : Nat} {c : Char} (hc : c.isDigit = false)
    (it : List Char) : parse_number bound (c :: it) = none := by
  simp [parse_number, List.takeWhile, hc]

/-- Consuming a literal succeeds on itself followed by anything. -/
theorem parse_symbol_append (symbol : List Char) (rest : List Char) :
    parse_symbol symbol (symbol ++ rest) = some rest := by
  induction symbol with
  | nil => simp [parse_symbol]
  | cons c tl ih => simp [parse_symbol, ih]

/-- Parsing the printed rank consumes exactly the rank characters. -/
theorem parse_rank_displayChars (rank : ScoreRank) (h : rankOK rank) (rest : List Char) :
    parse_rank (rank.displayChars ++ rest) = some (rank, rest) := by
  cases rank with
  | Normal fu han =>
    obtain ⟨hfu, hhan⟩ := h
    have h1 : parse_number 256 (natChars fu ++ ('符' :: (natChars han ++ '飜' :: rest))) =
        some (fu, '符' :: (natChars han ++ '飜' :: rest)) :=
      parse_number_natChars hfu _ (by intro c hc; simp at hc; subst hc; decide)
    have h2 : parse_number 256 (natChars han ++ '飜' :: rest) =
        some (han, '飜' :: rest) :=
      parse_number_natChars hhan _ (by intro c hc; simp at hc; subst hc; decide)
    simp [ScoreRank.displayChars, parse_rank, parse_rank_normal, h1, h2, parse_symbol]
  | Mangan =>
    simp [ScoreRank.displayChars, parse_rank, parse_rank_normal,
      parse_number_head_not_digit (c := '満') (by decide),
      parse_rank_mangan, parse_rank_mangan_loop, RANKS, parse_symbol]
  | Haneman =>
    simp [ScoreRank.displayChars, parse_rank, parse_rank_normal,
      parse_number_head_not_digit (c := '跳') (by decide),
      parse_rank_mangan, parse_rank_mangan_loop, RANKS, parse_symbol]
  | Baiman =>
    simp [ScoreRank.displayChars, parse_rank, parse_rank_normal,
      parse_number_head_not_digit (c := '倍') (by decide),
      parse_rank_mangan, parse_rank_mangan_loop, RANKS, parse_symbol]
  | Sanbaiman =>
    simp [ScoreRank.displayChars, parse_rank, parse_rank_normal,
      parse_number_head_not_digit (c := '三') (by decide),
      parse_rank_mangan, parse_rank_mangan_loop, RANKS, parse_symbol]
  | Yakuman =>
    simp [ScoreRank.displayChars, parse_rank, parse_rank_normal,
      parse_number_head_not_digit (c := '役') (by decide),
      parse_rank_mangan, parse_rank_mangan_loop, RANKS, parse_symbol]

theorem intChars_of_nonneg {x : Int} (h : 0 ≤ x) : intChars x = natChars x.toNat := by
  simp [intChars, Int.not_lt.mpr h]

/-- Parsing the printed score consumes the whole remaining input. -/
theorem parse_score_displayChars (s : Score) (h0 : scoreNonneg s) (h1 : scoreWithin s) :
    parse_score s.displayChars = some (s, []) := by
  cases s with
  | Ron x =>
    have hb : x.toNat < 2 ^ 31 := by
      simp only [scoreWithin] at h1; omega
    have h2 : parse_number (2 ^ 31) (natChars x.toNat ++ ['点']) =
        some (x.toNat, ['点']) :=
      parse_number_natChars hb _ (by intro c hc; simp at hc; subst hc; decide)
    simp only [scoreNonneg] at h0
    norm_num at h2
    simp [Score.displayChars, parse_score, intChars_of_nonneg h0, h2, parse_symbol,
      Int.toNat_of_nonneg h0]
  | OyaTsumo x =>
    have hb : x.toNat < 2 ^ 31 := by
      simp only [scoreWithin] at h1; omega
    have h2 : parse_number (2 ^ 31) (natChars x.toNat ++ ['点', '∀']) =
        some (x.toNat, ['点', '∀']) :=
      parse_number_natChars hb _ (by intro c hc; simp at hc; subst hc; decide)
    simp only [scoreNonneg] at h0
    norm_num at h2
    simp [Score.displayChars, parse_score, intChars_of_nonneg h0, h2, parse_symbol,
      Int.toNat_of_nonneg h0]
  | KoTsumo ko oya =>
    obtain ⟨hk, ho⟩ : 0 ≤ ko ∧ 0 ≤ oya := h0
    obtain ⟨hk1, ho1⟩ : ko < 2 ^ 31 ∧ oya < 2 ^ 31 := h1
    have h2 : parse_number (2 ^ 31)
        (natChars ko.toNat ++ ('-' :: (natChars oya.toNat ++ ['点']))) =
        some (ko.toNat, '-' :: (natChars oya.toNat ++ ['点'])) :=
      parse_number_natChars (by omega) _ (by intro c hc; simp at hc; subst hc; decide)
    have h3 : parse_number (2 ^ 31) (natChars oya.toNat ++ ['点']) =
        some (oya.toNat, ['点']) :=
      parse_number_natChars (by omega) _ (by intro c hc; simp at hc; subst hc; decide)
    norm_num at h2 h3
    simp [Score.displayChars, parse_score, intChars_of_nonneg hk, intChars_of_nonneg ho,
      h2, h3, parse_symbol, Int.toNat_of_nonneg hk, Int.toNat_of_nonneg ho]

/-- Round trip: parsing the printed form of a well-formed `RankedScore`
recovers it exactly. -/
theorem parse_print_roundtrip (r : RankedScore) (h : rankOK r.rank)
    (h0 : scoreNonneg r.score) (h1 : scoreWithin r.score) :
    parse_exact_ranked_score r.displayChars = some r := by
  have hr := parse_rank_displayChars r.rank h r.score.displayChars
  have hs := parse_score_displayChars r.score h0 h1
  simp [parse_exact_ranked_score, parse_ranked_score, RankedScore.displayChars, hr, hs]

/-! ## Shape of the values produced by the scoring functions -/

theorem ceil_to_100_lt (x : Int) : ceil_to_100 x < 2 ^ 31 := wrap32_lt _

theorem ceil_to_100_lt_numeral (x : Int) : ceil_to_100 x < 2147483648 :=
  lt_of_lt_of_le (ceil_to_100_lt x) (by norm_num)

theorem mul32_eq_of_small {a b : Int} (h0 : 0 ≤ a * b) (h1 : a * b < 2 ^ 31) :
    mul32 a b = a * b := wrap32_nonneg_eq h0 h1

theorem get_oya_ron_shape {fu han : Nat} {r : RankedScore} (hfu : fu < 256)
    (hhan : han < 256) (h : get_oya_ron fu han = some r) :
    rankOK r.rank ∧ scoreWithin r.score := by
  unfold get_oya_ron at h
  cases hb : calc_base_points fu han with
  | none => rw [hb] at h; simp at h
  | some b =>
    rw [hb] at h
    simp only at h
    split_ifs at h <;> (injection h with h; subst h) <;>
      simp_all [rankOK, scoreWithin, ceil_to_100_lt, ceil_to_100_lt_numeral]

theorem get_ko_ron_shape {fu han : Nat} {r : RankedScore} (hfu : fu < 256)
    (hhan : han < 256) (h : get_ko_ron fu han = some r) :
    rankOK r.rank ∧ scoreWithin r.score := by
  unfold get_ko_ron at h
  cases hb : calc_base_points fu han with
  | none => rw [hb] at h; simp at h
  | some b =>
    rw [hb] at h
    simp only at h
    split_ifs at h <;> (injection h with h; subst h) <;>
      simp_all [rankOK, scoreWithin, ceil_to_100_lt, ceil_to_100_lt_numeral]

theorem get_oya_tsumo_shape {fu han : Nat} {r : RankedScore} (hfu : fu < 256)
    (hhan : han < 256) (h : get_oya_tsumo fu han = some r) :
    rankOK r.rank ∧ scoreWithin r.score := by
  unfold get_oya_tsumo at h
  cases hb : calc_base_points fu han with
  | none => rw [hb] at h; simp at h
  | some b =>
    rw [hb] at h
    simp only at h
    split_ifs at h <;> (injection h with h; subst h) <;>
      simp_all [rankOK, scoreWithin, ceil_to_100_lt, ceil_to_100_lt_numeral]

theorem get_ko_tsumo_shape {fu han : Nat} {r : RankedScore} (hfu : fu < 256)
    (hhan : han < 256) (h : get_ko_tsumo fu han = some r) :
    rankOK r.rank ∧ scoreWithin r.score := by
  unfold get_ko_tsumo at h
  cases hb : calc_base_points fu han with
  | none => rw [hb] at h; simp at h
  | some b =>
    rw [hb] at h
    simp only at h
    split_ifs at h <;> (injection h with h; subst h) <;>
      simp_all [rankOK, scoreWithin, ceil_to_100_lt, ceil_to_100_lt_numeral]

theorem yakuman_amount_eq {num : Nat} (k : Int) (hk : 0 ≤ k) (hk2 : k ≤ 48000)
    (hnum : num < 256) : mul32 k num = k * num := by
  apply mul32_eq_of_small (by positivity)
  have h1 : k * num ≤ 48000 * 255 := by
    calc k * (num : Int) ≤ 48000 * num := by
          apply mul_le_mul_of_nonneg_right hk2 (by positivity)
      _ ≤ 48000 * 255 := by
          apply mul_le_mul_of_nonneg_left (by exact_mod_cast Nat.le_of_lt_succ (by omega)) (by norm_num)
  omega

end Tenhou

/-! ## Claim theorems: the scoring engine -/

/-- Claim C2: for every fu and han whose (well-defined) base value
`fu·2^(han+2)` is below 2000, the four scoring functions return the
graduated tier `Normal{fu,han}` with payments dealer ron `ceil100(base*6)`,
non-dealer ron `ceil100(base*4)`, dealer self-draw `ceil100(base*2)` from
each opponent, non-dealer self-draw `(ceil100(base), ceil100(base*2))`;
in particular non-dealer ron at (30 fu, 4 han) is Ron(7700), at
(30 fu, 5 han) is Mangan with Ron(8000), and a dealer self-draw double
yakuman is OyaTsumo(32000). -/
theorem C2_graduated_scoring :
    (∀ fu han : Nat, han ≤ 29 → (fu : Int) * 2 ^ (han + 2) < 2000 →
      Tenhou.get_oya_ron fu han =
        some ⟨.Normal fu han, .Ron (Tenhou.ceil_to_100 ((fu : Int) * 2 ^ (han + 2) * 6))⟩ ∧
      Tenhou.get_ko_ron fu han =
        some ⟨.Normal fu han, .Ron (Tenhou.ceil_to_100 ((fu : Int) * 2 ^ (han + 2) * 4))⟩ ∧
      Tenhou.get_oya_tsumo fu han =
        some ⟨.Normal fu han, .OyaTsumo (Tenhou.ceil_to_100 ((fu : Int) * 2 ^ (han + 2) * 2))⟩ ∧
      Tenhou.get_ko_tsumo fu han =
        some ⟨.Normal fu han,
              .KoTsumo (Tenhou.ceil_to_100 ((fu : Int) * 2 ^ (han + 2)))
                       (Tenhou.ceil_to_100 ((fu : Int) * 2 ^ (han + 2) * 2))⟩) ∧
    Tenhou.get_ko_ron 30 4 = some ⟨.Normal 30 4, .Ron 7700⟩ ∧
    Tenhou.get_ko_ron 30 5 = some ⟨.Mangan, .Ron 8000⟩ ∧
    Tenhou.get_oya_tsumo_yakuman 2 = ⟨.Yakuman, .OyaTsumo 32000⟩ := by
  refine ⟨?_, by decide, by decide, by decide⟩
  intro fu han h29 hlt
  set b : Int := (fu : Int) * 2 ^ (han + 2) with hbdef
  have hnn : (0:Int) ≤ b := by positivity
  have hbase : Tenhou.calc_base_points fu han = some b := by
    unfold Tenhou.calc_base_points
    rw [if_pos (by omega), wrap32_nonneg_eq hnn (by omega)]
  have h6 : mul32 b 6 = b * 6 := Tenhou.mul32_eq_of_small (by positivity) (by omega)
  have h4 : mul32 b 4 = b * 4 := Tenhou.mul32_eq_of_small (by positivity) (by omega)
  have h2 : mul32 b 2 = b * 2 := Tenhou.mul32_eq_of_small (by positivity) (by omega)
  refine ⟨?_, ?_, ?_, ?_⟩ <;>
    simp only [Tenhou.get_oya_ron, Tenhou.get_ko_ron, Tenhou.get_oya_tsumo,
      Tenhou.get_ko_tsumo, hbase] <;>
    rw [if_neg (by omega)] <;>
    simp [h6, h4, h2]

/-- Claim C2 witness: a concrete instance of the graduated-tier statement at
fu = 30, han = 4. -/
theorem C2_graduated_scoring_witness :
    Tenhou.get_ko_ron 30 4 =
      some ⟨.Normal 30 4, .Ron (Tenhou.ceil_to_100 ((30 : Int) * 2 ^ (4 + 2) * 4))⟩ :=
  (C2_graduated_scoring.1 30 4 (by norm_num) (by norm_num)).2.1

/-- Claim C10: the four scoring functions evaluate `(fu as i32) << (han+2)`
before any tier check, so they are defined exactly when the shift amount
`han+2` is below 32, i.e. when `han ≤ 29`; every input with `han ≥ 30` is an
invalid shift (arithmetic-overflow program error), even though han ≥ 13
would otherwise select the fixed yakuman payout. -/
theorem C10_shift_before_tier_check :
    ∀ fu han : Nat,
      ((Tenhou.get_oya_ron fu han).isSome ↔ han ≤ 29) ∧
      ((Tenhou.get_ko_ron fu han).isSome ↔ han ≤ 29) ∧
      ((Tenhou.get_oya_tsumo fu han).isSome ↔ han ≤ 29) ∧
      ((Tenhou.get_ko_tsumo fu han).isSome ↔ han ≤ 29) := by
  intro fu han
  by_cases h : han + 2 < 32
  · have h29 : han ≤ 29 := by omega
    have hbase : Tenhou.calc_base_points fu han =
        some (wrap32 ((fu : Int) * 2 ^ (han + 2))) := by
      unfold Tenhou.calc_base_points
      rw [if_pos h]
    refine ⟨?_, ?_, ?_, ?_⟩ <;>
      · simp only [Tenhou.get_oya_ron, Tenhou.get_ko_ron, Tenhou.get_oya_tsumo,
          Tenhou.get_ko_tsumo, hbase]
        constructor
        · intro _; exact h29
        · intro _; split_ifs <;> simp
  · have hbase : Tenhou.calc_base_points fu han = none := by
      unfold Tenhou.calc_base_points
      rw [if_neg h]
    refine ⟨?_, ?_, ?_, ?_⟩ <;>
      · simp only [Tenhou.get_oya_ron, Tenhou.get_ko_ron, Tenhou.get_oya_tsumo,
          Tenhou.get_ko_tsumo, hbase, Option.isSome_none, Bool.false_eq_true,
          false_iff]
        omega

/-- Claim C3 counterexample: the scoring functions can produce a RankedScore
whose payment is negative (32-bit wraparound at fu = 253, han = 23); its
printed form contains a minus sign, which the digits-only score parser
rejects, so parse ∘ print does not recover the value and the round-trip
claim fails as stated. -/
theorem C3_counterexample :
    Tenhou.get_ko_ron 253 23 = some ⟨.Normal 253 23, .Ron (-402653000)⟩ ∧
    Tenhou.parse_exact_ranked_score
      (Tenhou.RankedScore.displayChars ⟨.Normal 253 23, .Ron (-402653000)⟩) = none := by
  constructor <;> decide

/-- Claim C3 (amended): for every RankedScore produced by the scoring
functions whose payment amounts are nonnegative (no 32-bit wraparound into a
negative value), parsing its printed textual form yields back the identical
RankedScore; and the parser rejects any input string with trailing
characters after a valid score. -/
theorem C3_roundtrip_amended :
    (∀ (fu han : Nat) (r : Tenhou.RankedScore), fu < 256 → han < 256 →
      Tenhou.get_oya_ron fu han = some r → Tenhou.scoreNonneg r.score →
      Tenhou.parse_exact_ranked_score r.displayChars = some r) ∧
    (∀ (fu han : Nat) (r : Tenhou.RankedScore), fu < 256 → han < 256 →
      Tenhou.get_ko_ron fu han = some r → Tenhou.scoreNonneg r.score →
      Tenhou.parse_exact_ranked_score r.displayChars = some r) ∧
    (∀ (fu han : Nat) (r : Tenhou.RankedScore), fu < 256 → han < 256 →
      Tenhou.get_oya_tsumo fu han = some r → Tenhou.scoreNonneg r.score →
      Tenhou.parse_exact_ranked_score r.displayChars = some r) ∧
    (∀ (fu han : Nat) (r : Tenhou.RankedScore), fu < 256 → han < 256 →
      Tenhou.get_ko_tsumo fu han = some r → Tenhou.scoreNonneg r.score →
      Tenhou.parse_exact_ranked_score r.displayChars = some r) ∧
    (∀ num : Nat, num < 256 →
      Tenhou.parse_exact_ranked_score (Tenhou.get_oya_tsumo_yakuman num).displayChars =
        some (Tenhou.get_oya_tsumo_yakuman num)) ∧
    (∀ num : Nat, num < 256 →
      Tenhou.parse_exact_ranked_score (Tenhou.get_ko_tsumo_yakuman num).displayChars =
        some (Tenhou.get_ko_tsumo_yakuman num)) ∧
    (∀ num : Nat, num < 256 →
      Tenhou.parse_exact_ranked_score (Tenhou.get_oya_ron_yakuman num).displayChars =
        some (Tenhou.get_oya_ron_yakuman num)) ∧
    (∀ num : Nat, num < 256 →
      Tenhou.parse_exact_ranked_score (Tenhou.get_ko_ron_yakuman num).displayChars =
        some (Tenhou.get_ko_ron_yakuman num)) ∧
    (∀ (s : List Char) (r : Tenhou.RankedScore) (rest : List Char),
      Tenhou.parse_ranked_score s = some (r, rest) → rest ≠ [] →
      Tenhou.parse_exact_ranked_score s = none) := by
  refine ⟨?_, ?_, ?_, ?_, ?_, ?_, ?_, ?_, ?_⟩
  · intro fu han r hfu hhan h hnn
    obtain ⟨h1, h2⟩ := Tenhou.get_oya_ron_shape hfu hhan h
    exact Tenhou.parse_print_roundtrip r h1 hnn h2
  · intro fu han r hfu hhan h hnn
    obtain ⟨h1, h2⟩ := Tenhou.get_ko_ron_shape hfu hhan h
    exact Tenhou.parse_print_roundtrip r h1 hnn h2
  · intro fu han r hfu hhan h hnn
    obtain ⟨h1, h2⟩ := Tenhou.get_oya_tsumo_shape hfu hhan h
    exact Tenhou.parse_print_roundtrip r h1 hnn h2
  · intro fu han r hfu hhan h hnn
    obtain ⟨h1, h2⟩ := Tenhou.get_ko_tsumo_shape hfu hhan h
    exact Tenhou.parse_print_roundtrip r h1 hnn h2
  · intro num hnum
    have h16 := Tenhou.yakuman_amount_eq 16000 (by norm_num) (by norm_num) hnum
    refine Tenhou.parse_print_roundtrip _ ?_ ?_ ?_
    · simp [Tenhou.get_oya_tsumo_yakuman, Tenhou.rankOK]
    · simp [Tenhou.get_oya_tsumo_yakuman, Tenhou.scoreNonneg, h16]
    · simp [Tenhou.get_oya_tsumo_yakuman, Tenhou.scoreWithin, h16]; omega
  · intro num hnum
    have h16 := Tenhou.yakuman_amount_eq 16000 (by norm_num) (by norm_num) hnum
    have h8 := Tenhou.yakuman_amount_eq 8000 (by norm_num) (by norm_num) hnum
    refine Tenhou.parse_print_roundtrip _ ?_ ?_ ?_
    · simp [Tenhou.get_ko_tsumo_yakuman, Tenhou.rankOK]
    · simp [Tenhou.get_ko_tsumo_yakuman, Tenhou.scoreNonneg, h8, h16]
    · simp [Tenhou.get_ko_tsumo_yakuman, Tenhou.scoreWithin, h8, h16]; omega
  · intro num hnum
    have h48 := Tenhou.yakuman_amount_eq 48000 (by norm_num) (by norm_num) hnum
    refine Tenhou.parse_print_roundtrip _ ?_ ?_ ?_
    · simp [Tenhou.get_oya_ron_yakuman, Tenhou.rankOK]
    · simp [Tenhou.get_oya_ron_yakuman, Tenhou.scoreNonneg, h48]
    · simp [Tenhou.get_oya_ron_yakuman, Tenhou.scoreWithin, h48]; omega
  · intro num hnum
    have h32 := Tenhou.yakuman_amount_eq 32000 (by norm_num) (by norm_num) hnum
    refine Tenhou.parse_print_roundtrip _ ?_ ?_ ?_
    · simp [Tenhou.get_ko_ron_yakuman, Tenhou.rankOK]
    · simp [Tenhou.get_ko_ron_yakuman, Tenhou.scoreNonneg, h32]
    · simp [Tenhou.get_ko_ron_yakuman, Tenhou.scoreWithin, h32]; omega
  · intro s r rest h hne
    unfold Tenhou.parse_exact_ranked_score
    rw [h]
    cases rest with
    | nil => exact absurd rfl hne
    | cons c tl => rfl

/-- Claim C3 (amended) witness: a concrete round trip at fu = 30, han = 4,
and a concrete rejected trailing character. -/
theorem C3_roundtrip_amended_witness :
    Tenhou.parse_exact_ranked_score
      (Tenhou.RankedScore.displayChars ⟨.Normal 30 4, .Ron 7700⟩) =
      some ⟨.Normal 30 4, .Ron 7700⟩ ∧
    Tenhou.parse_exact_ranked_score ("40符3飜7700点 ".toList) = none :=
  ⟨C3_roundtrip_amended.2.1 30 4 ⟨.Normal 30 4, .Ron 7700⟩ (by norm_num) (by norm_num)
      (by decide) (by norm_num [Tenhou.scoreNonneg]),
   C3_roundtrip_amended.2.2.2.2.2.2.2.2 ("40符3飜7700点 ".toList)
      ⟨.Normal 40 3, .Ron 7700⟩ [' '] (by decide) (by decide)⟩

/-! ## Claim theorems: the binary meld decoder -/

/-- Claim C1: for every 16-bit meld field m, the binary meld decoder
dispatches by priority-ordered bit tests: bit 2 set decodes a Chii; else
bit 3 or bit 4 decode a Pon (bit 3) or Kakan (bit 4); else bit 5 fails with
the unsupported seat-exchange call error (`UnexpectedPeiNuki`); else a Kan,
an Ankan when bits 0-1 encode the self direction and a Daiminkan with that
source direction otherwise. -/
theorem C1_meld_dispatch (m : Nat) (_hm : m < 65536) :
    (m &&& 4 ≠ 0 → ∃ comb pos, Mjlog.conv_meld_from_u16 m = .ok (.Chii comb pos)) ∧
    (m &&& 4 = 0 → (m &&& 8 ≠ 0 ∨ m &&& 16 ≠ 0) →
      (m &&& 16 ≠ 0 →
        ∃ d comb ca ad, Mjlog.conv_meld_from_u16 m = .ok (.Kakan d comb ca ad)) ∧
      (m &&& 16 = 0 →
        ∃ d comb ca un, Mjlog.conv_meld_from_u16 m = .ok (.Pon d comb ca un))) ∧
    (m &&& 4 = 0 → m &&& 8 = 0 → m &&& 16 = 0 → m &&& 32 ≠ 0 →
      Mjlog.conv_meld_from_u16 m = .error .UnexpectedPeiNuki) ∧
    (m &&& 4 = 0 → m &&& 8 = 0 → m &&& 16 = 0 → m &&& 32 = 0 →
      (m &&& 3 = 0 → ∃ h, Mjlog.conv_meld_from_u16 m = .ok (.Ankan h)) ∧
      (m &&& 3 ≠ 0 → ∃ d h, d ≠ Mjlog.Direction.SelfSeat ∧
        Mjlog.Direction.from_u8 (m &&& 3) = some d ∧
        Mjlog.conv_meld_from_u16 m = .ok (.Daiminkan d h))) := by
  refine ⟨?_, ?_, ?_, ?_⟩
  · intro h4
    simp only [Mjlog.conv_meld_from_u16]
    rw [if_pos h4]
    exact ⟨_, _, rfl⟩
  · intro h4 h816
    constructor
    · intro h16
      simp only [Mjlog.conv_meld_from_u16]
      rw [if_neg (fun hc => hc h4), if_pos h816, if_pos h16]
      exact ⟨_, _, _, _, rfl⟩
    · intro h16
      simp only [Mjlog.conv_meld_from_u16]
      rw [if_neg (fun hc => hc h4), if_pos h816, if_neg (fun hc => hc h16)]
      exact ⟨_, _, _, _, rfl⟩
  · intro h4 h8 h16 h32
    simp only [Mjlog.conv_meld_from_u16]
    rw [if_neg (fun hc => hc h4),
      if_neg (fun hv => Or.elim hv (fun hx => hx h8) (fun hx => hx h16)),
      if_pos h32]
  · intro h4 h8 h16 h32
    simp only [Mjlog.conv_meld_from_u16]
    rw [if_neg (fun hc => hc h4),
      if_neg (fun hv => Or.elim hv (fun hx => hx h8) (fun hx => hx h16)),
      if_neg (fun hc => hc h32)]
    constructor
    · intro h0
      rw [h0]
      simp only [Mjlog.Direction.from_u8, Option.getD_some, if_true]
      exact ⟨_, rfl⟩
    · intro h0
      have h3 : m &&& 3 ≤ 3 := Nat.and_le_right
      have hcase : m &&& 3 = 1 ∨ m &&& 3 = 2 ∨ m &&& 3 = 3 := by omega
      rcases hcase with hk | hk | hk
      · refine ⟨.Shimocha, Mjlog.Hai.new ((m &&& 0xff00) >>> 8), by decide, ?_, ?_⟩
        · rw [hk]; rfl
        · rw [hk]
          simp only [Mjlog.Direction.from_u8, Option.getD_some]
          rw [if_neg (by decide)]
      · refine ⟨.Toimen, Mjlog.Hai.new ((m &&& 0xff00) >>> 8), by decide, ?_, ?_⟩
        · rw [hk]; rfl
        · rw [hk]
          simp only [Mjlog.Direction.from_u8, Option.getD_some]
          rw [if_neg (by decide)]
      · refine ⟨.Kamicha, Mjlog.Hai.new ((m &&& 0xff00) >>> 8), by decide, ?_, ?_⟩
        · rw [hk]; rfl
        · rw [hk]
          simp only [Mjlog.Direction.from_u8, Option.getD_some]
          rw [if_neg (by decide)]

/-- Claim C1 witness: concrete instances of every dispatch branch.
`0x0004` is a Chii, `0x0008` a Pon, `0x0010` a Kakan, `0x0020` the
unsupported seat-exchange call, `0x0000` an Ankan, `0x0001` a Daiminkan
from the right seat. -/
theorem C1_meld_dispatch_witness :
    (∃ comb pos, Mjlog.conv_meld_from_u16 4 = .ok (.Chii comb pos)) ∧
    (∃ d comb ca un, Mjlog.conv_meld_from_u16 8 = .ok (.Pon d comb ca un)) ∧
    (∃ d comb ca ad, Mjlog.conv_meld_from_u16 16 = .ok (.Kakan d comb ca ad)) ∧
    Mjlog.conv_meld_from_u16 32 = .error .UnexpectedPeiNuki ∧
    (∃ h, Mjlog.conv_meld_from_u16 0 = .ok (.Ankan h)) ∧
    (∃ d h, d ≠ Mjlog.Direction.SelfSeat ∧
      Mjlog.Direction.from_u8 (1 &&& 3) = some d ∧
      Mjlog.conv_meld_from_u16 1 = .ok (.Daiminkan d h)) :=
  ⟨(C1_meld_dispatch 4 (by norm_num)).1 (by decide),
   ((C1_meld_dispatch 8 (by norm_num)).2.1 (by decide) (by decide)).2 (by decide),
   ((C1_meld_dispatch 16 (by norm_num)).2.1 (by decide) (by decide)).1 (by decide),
   (C1_meld_dispatch 32 (by norm_num)).2.2.1 (by decide) (by decide) (by decide) (by decide),
   ((C1_meld_dispatch 0 (by norm_num)).2.2.2 (by decide) (by decide) (by decide)
     (by decide)).1 (by decide),
   ((C1_meld_dispatch 1 (by norm_num)).2.2.2 (by decide) (by decide) (by decide)
     (by decide)).2 (by decide)⟩

/-! ## Claim theorems: the decorated-string decoder -/

/-- Claim C4 counterexample: decoding "1p23" (single letter at odd offset 1)
fails with the `InvalidMeld` kind, not the `InvalidLetterPosition` kind the
claim names. -/
theorem C4_counterexample :
    Tenhou.parse_decorated_tile "1p23".toList = .error .InvalidMeld ∧
    Tenhou.TenhouJsonErrorKind.InvalidMeld ≠
      Tenhou.TenhouJsonErrorKind.InvalidLetterPosition := by
  constructor <;> decide

/-- Claim C4 (amended): a decorated string whose (first) alphabetic
character sits at an odd character offset is rejected with the
`InvalidMeld` failure kind (not `InvalidLetterPosition`, which this decoder
reserves for role-table direction offsets); a string with the letter at an
even offset such as "12p3" is accepted by the offset check — it proceeds
past it (and then crashes on the dangling single digit character, a Rust
index-out-of-bounds panic, modelled as `panicE`). -/
theorem C4_odd_letter_amended :
    (∀ (s : List Char) (pos : Nat) (c : Char),
      s.all Char.isAlphanum = true →
      s.enum.find? (fun p => p.2.isAlpha) = some (pos, c) →
      pos % 2 = 1 →
      Tenhou.parse_decorated_tile s = .error .InvalidMeld) ∧
    Tenhou.parse_decorated_tile "12p3".toList = .error .panicE := by
  constructor
  · intro s pos c hall hfind hodd
    simp [Tenhou.parse_decorated_tile, hall, hfind, hodd]
  · decide

/-- Claim C4 (amended) witness: the odd-offset rejection at the concrete
input "1p23". -/
theorem C4_odd_letter_amended_witness :
    Tenhou.parse_decorated_tile "1p23".toList = .error .InvalidMeld :=
  C4_odd_letter_amended.1 "1p23".toList 1 'p' (by decide) (by decide) (by decide)

/-! ## Claim theorems: round segmentation -/

/-- The `extract_round_indices` loop pairs each pending start with the next
round-init position (or, at the end of the log, with the log length). -/
theorem eri_go_spec :
    ∀ (rest : List Mjlog.Action) (i : Nat) (acc : List (Nat × Nat)),
      (Conv.eri_go rest i none acc =
        acc ++ List.zip (Conv.initPositionsFrom rest i)
          ((Conv.initPositionsFrom rest i).drop 1 ++ [i + rest.length])) ∧
      (∀ s, Conv.eri_go rest i (some s) acc =
        acc ++ List.zip (s :: Conv.initPositionsFrom rest i)
          (Conv.initPositionsFrom rest i ++ [i + rest.length])) := by
  intro rest
  induction rest with
  | nil =>
    intro i acc
    constructor
    · simp [Conv.eri_go, Conv.initPositionsFrom]
    · intro s
      simp [Conv.eri_go, Conv.initPositionsFrom]
  | cons a tl ih =>
    intro i acc
    by_cases ha : a.is_init
    · have hlen : i + (tl.length + 1) = i + 1 + tl.length := by omega
      constructor
      · rw [show Conv.eri_go (a :: tl) i none acc = Conv.eri_go tl (i + 1) (some i) acc by
          simp [Conv.eri_go, ha]]
        rw [(ih (i + 1) acc).2 i]
        simp [Conv.initPositionsFrom, ha, hlen]
      · intro s
        rw [show Conv.eri_go (a :: tl) i (some s) acc =
            Conv.eri_go tl (i + 1) (some i) (acc ++ [(s, i)]) by
          simp [Conv.eri_go, ha]]
        rw [(ih (i + 1) (acc ++ [(s, i)])).2 i]
        simp [Conv.initPositionsFrom, ha, hlen]
    · have hlen : i + (tl.length + 1) = i + 1 + tl.length := by omega
      constructor
      · rw [show Conv.eri_go (a :: tl) i none acc = Conv.eri_go tl (i + 1) none acc by
          simp [Conv.eri_go, ha]]
        rw [(ih (i + 1) acc).1]
        simp [Conv.initPositionsFrom, ha, hlen]
      · intro s
        rw [show Conv.eri_go (a :: tl) i (some s) acc =
            Conv.eri_go tl (i + 1) (some s) acc by
          simp [Conv.eri_go, ha]]
        rw [(ih (i + 1) acc).2 s]
        simp [Conv.initPositionsFrom, ha, hlen]

theorem initPositionsFrom_eq_nil {actions : List Mjlog.Action}
    (h : ∀ a ∈ actions, a.is_init = false) : ∀ i, Conv.initPositionsFrom actions i = [] := by
  induction actions with
  | nil => intro i; rfl
  | cons a tl ih =>
    intro i
    have ha := h a (by simp)
    simp only [Conv.initPositionsFrom, ha, Bool.false_eq_true, if_false]
    exact ih (fun x hx => h x (by simp [hx])) (i + 1)

/-- Claim C5: round segmentation pairs the i-th round-init position with
the (i+1)-th (the last with the log length), hence one round interval per
round-init action; and conversion of a log with zero round-inits (that
passes the table-open and roster lookups) fails with `NotFoundRound`. -/
theorem C5_round_segmentation :
    (∀ actions : List Mjlog.Action,
      Conv.extract_round_indices actions =
        List.zip (Conv.initPositionsFrom actions 0)
          ((Conv.initPositionsFrom actions 0).drop 1 ++ [actions.length])) ∧
    (∀ actions : List Mjlog.Action,
      (Conv.extract_round_indices actions).length =
        (Conv.initPositionsFrom actions 0).length) ∧
    (∀ (log : Mjlog.Mjlog) (g : Mjlog.ActionGO) (u : Mjlog.ActionUN1),
      log.actions.find? Mjlog.Action.is_go = some (.GO g) →
      log.actions.find? Mjlog.Action.is_un1 = some (.UN1 u) →
      (∀ a ∈ log.actions, a.is_init = false) →
      Conv.conv_to_tenhou_json log = .error .NotFoundRound) := by
  have hspec : ∀ actions : List Mjlog.Action,
      Conv.extract_round_indices actions =
        List.zip (Conv.initPositionsFrom actions 0)
          ((Conv.initPositionsFrom actions 0).drop 1 ++ [actions.length]) := by
    intro actions
    have h := (eri_go_spec actions 0 []).1
    simpa [Conv.extract_round_indices] using h
  refine ⟨hspec, ?_, ?_⟩
  · intro actions
    rw [hspec actions]
    rcases hP : Conv.initPositionsFrom actions 0 with _ | ⟨p, ps⟩
    · simp
    · simp [List.length_zip]
  · intro log g u hgo hun1 hnoinit
    have hempty : Conv.extract_round_indices log.actions = [] := by
      rw [hspec log.actions, initPositionsFrom_eq_nil hnoinit 0]
      simp
    simp only [Conv.conv_to_tenhou_json, hgo, hun1, hempty]
    rfl

/-- Claim C5 witness: a log with a table-open and a roster action but zero
round-inits fails with `NotFoundRound`, and concrete interval counts. -/
theorem C5_round_segmentation_witness :
    Conv.conv_to_tenhou_json ⟨⟨"2.3"⟩, [.GO sampleGO, .UN1 sampleUN1]⟩ =
      .error .NotFoundRound :=
  C5_round_segmentation.2.2 ⟨⟨"2.3"⟩, [.GO sampleGO, .UN1 sampleUN1]⟩ sampleGO sampleUN1
    (by decide) (by decide) (by decide)

/-! ## Claim theorems: the match-conclusion lookup -/

/-- Behaviour of the backward scan: it inspects only the first terminal
(win/draw) action of the traversal order. -/
theorem find_final_result_core_spec :
    ∀ l : List Mjlog.Action,
      (l.find? Conv.isTerminal = none →
        Conv.find_final_result_core l = .error .NotFoundFinalResult) ∧
      (∀ a, l.find? Conv.isTerminal = some a →
        (∀ x, Conv.Action.owari? a = some x →
          Conv.find_final_result_core l = .ok x) ∧
        (Conv.Action.owari? a = none →
          Conv.find_final_result_core l = .error .InvalidRoundFormat)) := by
  intro l
  induction l with
  | nil => exact ⟨fun _ => rfl, fun a ha => by simp at ha⟩
  | cons a0 tl ih =>
    by_cases h : Conv.isTerminal a0
    · have hfind : (a0 :: tl).find? Conv.isTerminal = some a0 :=
        List.find?_cons_of_pos _ h
      constructor
      · intro hn; rw [hfind] at hn; exact absurd hn (by simp)
      · intro a ha
        rw [hfind] at ha
        injection ha with ha; subst ha
        cases a0 with
        | AGARI v =>
          cases hw : v.owari with
          | some x =>
            exact ⟨fun y hy => by
                simp only [Conv.Action.owari?, hw] at hy
                injection hy with hy; subst hy
                simp [Conv.find_final_result_core, hw],
              fun hy => by simp [Conv.Action.owari?, hw] at hy⟩
          | none =>
            exact ⟨fun y hy => by simp [Conv.Action.owari?, hw] at hy,
              fun _ => by simp [Conv.find_final_result_core, hw]⟩
        | RYUUKYOKU v =>
          cases hw : v.owari with
          | some x =>
            exact ⟨fun y hy => by
                simp only [Conv.Action.owari?, hw] at hy
                injection hy with hy; subst hy
                simp [Conv.find_final_result_core, hw],
              fun hy => by simp [Conv.Action.owari?, hw] at hy⟩
          | none =>
            exact ⟨fun y hy => by simp [Conv.Action.owari?, hw] at hy,
              fun _ => by simp [Conv.find_final_result_core, hw]⟩
        | SHUFFLE x => exact absurd h (by simp [Conv.isTerminal, Mjlog.Action.is_agari,
            Mjlog.Action.is_ryuukyoku, Mjlog.Action.as_agari, Mjlog.Action.as_ryuukyoku])
        | GO x => exact absurd h (by simp [Conv.isTerminal, Mjlog.Action.is_agari,
            Mjlog.Action.is_ryuukyoku, Mjlog.Action.as_agari, Mjlog.Action.as_ryuukyoku])
        | UN1 x => exact absurd h (by simp [Conv.isTerminal, Mjlog.Action.is_agari,
            Mjlog.Action.is_ryuukyoku, Mjlog.Action.as_agari, Mjlog.Action.as_ryuukyoku])
        | UN2 x => exact absurd h (by simp [Conv.isTerminal, Mjlog.Action.is_agari,
            Mjlog.Action.is_ryuukyoku, Mjlog.Action.as_agari, Mjlog.Action.as_ryuukyoku])
        | BYE x => exact absurd h (by simp [Conv.isTerminal, Mjlog.Action.is_agari,
            Mjlog.Action.is_ryuukyoku, Mjlog.Action.as_agari, Mjlog.Action.as_ryuukyoku])
        | TAIKYOKU x => exact absurd h (by simp [Conv.isTerminal, Mjlog.Action.is_agari,
            Mjlog.Action.is_ryuukyoku, Mjlog.Action.as_agari, Mjlog.Action.as_ryuukyoku])
        | INIT x => exact absurd h (by simp [Conv.isTerminal, Mjlog.Action.is_agari,
            Mjlog.Action.is_ryuukyoku, Mjlog.Action.as_agari, Mjlog.Action.as_ryuukyoku])
        | REACH1 x => exact absurd h (by simp [Conv.isTerminal, Mjlog.Action.is_agari,
            Mjlog.Action.is_ryuukyoku, Mjlog.Action.as_agari, Mjlog.Action.as_ryuukyoku])
        | REACH2 x => exact absurd h (by simp [Conv.isTerminal, Mjlog.Action.is_agari,
            Mjlog.Action.is_ryuukyoku, Mjlog.Action.as_agari, Mjlog.Action.as_ryuukyoku])
        | N x => exact absurd h (by simp [Conv.isTerminal, Mjlog.Action.is_agari,
            Mjlog.Action.is_ryuukyoku, Mjlog.Action.as_agari, Mjlog.Action.as_ryuukyoku])
        | DORA x => exact absurd h (by simp [Conv.isTerminal, Mjlog.Action.is_agari,
            Mjlog.Action.is_ryuukyoku, Mjlog.Action.as_agari, Mjlog.Action.as_ryuukyoku])
        | DRAW x => exact absurd h (by simp [Conv.isTerminal, Mjlog.Action.is_agari,
            Mjlog.Action.is_ryuukyoku, Mjlog.Action.as_agari, Mjlog.Action.as_ryuukyoku])
        | DISCARD x => exact absurd h (by simp [Conv.isTerminal, Mjlog.Action.is_agari,
            Mjlog.Action.is_ryuukyoku, Mjlog.Action.as_agari, Mjlog.Action.as_ryuukyoku])
    · have hfind : (a0 :: tl).find? Conv.isTerminal = tl.find? Conv.isTerminal :=
        List.find?_cons_of_neg _ (by simpa using h)
      have hcore : Conv.find_final_result_core (a0 :: tl) =
          Conv.find_final_result_core tl := by
        cases a0 <;>
          first
          | rfl
          | exact absurd (by simp [Conv.isTerminal, Mjlog.Action.is_agari,
              Mjlog.Action.is_ryuukyoku, Mjlog.Action.as_agari,
              Mjlog.Action.as_ryuukyoku]) h
      rw [hfind, hcore]
      exact ih

/-- Claim C7 counterexample: the log ends with a draw action carrying no
final-standing payload while an earlier win action does carry one; the
lookup fails with `InvalidRoundFormat` instead of returning that payload
(and instead of `NotFoundFinalResult`). -/
theorem C7_counterexample :
    Conv.Action.owari? (.AGARI sampleAgariOwari) = some ([], []) ∧
    Conv.find_final_result [.AGARI sampleAgariOwari, .RYUUKYOKU sampleRyuukyokuNoOwari] =
      .error .InvalidRoundFormat := by
  constructor <;> decide

/-- Claim C7 (amended): the lookup scans backward from the end of the log
and inspects only the most recent win/draw action: if that action carries a
final-standing payload the payload is returned; if it does not, the lookup
fails with `InvalidRoundFormat`; `NotFoundFinalResult` is returned only
when the log contains no win/draw action at all. -/
theorem C7_find_final_result_amended :
    ∀ actions : List Mjlog.Action,
      (actions.reverse.find? Conv.isTerminal = none →
        Conv.find_final_result actions = .error .NotFoundFinalResult) ∧
      (∀ a, actions.reverse.find? Conv.isTerminal = some a →
        (∀ x, Conv.Action.owari? a = some x →
          Conv.find_final_result actions = .ok x) ∧
        (Conv.Action.owari? a = none →
          Conv.find_final_result actions = .error .InvalidRoundFormat)) := by
  intro actions
  exact find_final_result_core_spec actions.reverse

/-- Claim C7 (amended) witness: a log whose only terminal action carries a
payload returns it; a log whose most recent terminal action lacks one fails
`InvalidRoundFormat`. -/
theorem C7_find_final_result_amended_witness :
    Conv.find_final_result [.AGARI sampleAgariOwari] = .ok ([], []) ∧
    Conv.find_final_result [.AGARI sampleAgariOwari, .RYUUKYOKU sampleRyuukyokuNoOwari] =
      .error .InvalidRoundFormat :=
  ⟨((C7_find_final_result_amended [.AGARI sampleAgariOwari]).2
      (.AGARI sampleAgariOwari) (by decide)).1 ([], []) (by decide),
   ((C7_find_final_result_amended
        [.AGARI sampleAgariOwari, .RYUUKYOKU sampleRyuukyokuNoOwari]).2
      (.RYUUKYOKU sampleRyuukyokuNoOwari) (by decide)).2 (by decide)⟩

/-! ## Claim theorems: replay stream invariants -/

theorem head_dropWhile_false {α : Type} (p : α → Bool) :
    ∀ (l : List α) (x : α), (l.dropWhile p).head? = some x → p x = false := by
  intro l
  induction l with
  | nil => intro x hx; simp [List.dropWhile] at hx
  | cons a tl ih =>
    intro x hx
    by_cases h : p a
    · rw [List.dropWhile_cons_of_pos h] at hx
      exact ih x hx
    · rw [List.dropWhile_cons_of_neg h] at hx
      simp at hx
      subst hx
      exact Bool.not_eq_true _ ▸ (by simpa using h)

theorem trim_trailing_dummy_getLast (l : List Tenhou.OutgoingTile) :
    (Conv.trim_trailing_dummy l).getLast? ≠ some Tenhou.OutgoingTile.Dummy := by
  unfold Conv.trim_trailing_dummy
  rw [List.getLast?_reverse]
  intro h
  have := head_dropWhile_false (fun t => decide (t = Tenhou.OutgoingTile.Dummy)) l.reverse
    Tenhou.OutgoingTile.Dummy h
  simp at this

/-- Claim C8: the outgoing stream returned by the replay fold never ends
with the `Dummy` filler placeholder (the trailing trim removes them), and
every successful Daiminkan step appends exactly one element to the
incoming stream and exactly one `Dummy` filler to the outgoing stream,
keeping the two streams index-aligned before the final trim. -/
theorem C8_daiminkan_filler :
    (∀ (actions : List Mjlog.Action) (inc : List Tenhou.IncomingTile)
        (out : List Tenhou.OutgoingTile),
      Conv.replay_actions actions = .ok (inc, out) →
      out.getLast? ≠ some Tenhou.OutgoingTile.Dummy) ∧
    (∀ (st : Conv.ReplayState) (who : Mjlog.Player) (dir : Mjlog.Direction)
        (hai : Mjlog.Hai) (st' : Conv.ReplayState),
      Conv.replay_step st (.N ⟨who, .Daiminkan dir hai⟩) = .ok st' →
      (∃ comb d, st'.incoming = st.incoming ++ [.Daiminkan comb d]) ∧
      st'.outgoing = st.outgoing ++ [.Dummy] ∧
      st'.incoming.length = st.incoming.length + 1 ∧
      st'.outgoing.length = st.outgoing.length + 1) := by
  constructor
  · intro actions inc out h
    unfold Conv.replay_actions at h
    simp only [Bind.bind, Except.bind] at h
    split at h
    · exact absurd h (by simp)
    · injection h with h
      injection h with h1 h2
      rw [← h2]
      exact trim_trailing_dummy_getLast _
  · intro st who dir hai st' h
    simp only [Conv.replay_step] at h
    by_cases h5 : hai.is_number5
    · rw [if_pos h5] at h
      simp only [Bind.bind, Except.bind] at h
      repeat any_goals split at h
      all_goals try simp only [Except.ok.injEq] at h
      all_goals
        first
        | exact absurd h (by simp)
        | (subst h
           exact ⟨⟨_, _, rfl⟩, rfl, by simp, by simp⟩)
    · rw [if_neg h5] at h
      simp only [Bind.bind, Except.bind] at h
      repeat any_goals split at h
      all_goals try simp only [Except.ok.injEq] at h
      all_goals
        first
        | exact absurd h (by simp)
        | (subst h
           exact ⟨⟨_, _, rfl⟩, rfl, by simp, by simp⟩)

/-- Claim C8 witness: the empty replay has a trimmed outgoing stream, and a
concrete Daiminkan step appends one incoming entry and one filler. -/
theorem C8_daiminkan_filler_witness :
    (([] : List Tenhou.OutgoingTile).getLast? ≠ some Tenhou.OutgoingTile.Dummy) ∧
    (∃ comb d, daiminkanReplayState.incoming =
      emptyReplayState.incoming ++ [.Daiminkan comb d]) ∧
    daiminkanReplayState.outgoing = emptyReplayState.outgoing ++ [.Dummy] ∧
    daiminkanReplayState.incoming.length = emptyReplayState.incoming.length + 1 ∧
    daiminkanReplayState.outgoing.length = emptyReplayState.outgoing.length + 1 :=
  ⟨C8_daiminkan_filler.1 [] [] [] (by decide),
   C8_daiminkan_filler.2 emptyReplayState ⟨0⟩ .Kamicha ⟨0⟩ daiminkanReplayState (by decide)⟩

/-! ## Claim theorems: Pon red-five placement in replay -/

/-- Claim C6 counterexample: a left-seat (Kamicha) Pon of the 5m rank where
the unused physical copy is the red one (`Hai 16`): replay produces a
combination of three black tiles (the red copy is not part of the meld),
so slot 0 does not hold a red tile as the claim states. -/
theorem C6_counterexample :
    Conv.replay_actions [.N ⟨⟨0⟩, ponRedUnusedMeld⟩] =
      .ok ([.Pon (⟨15⟩, ⟨15⟩, ⟨15⟩) .Kamicha], []) ∧
    (Tenhou.Tile.mk 15).is_red = false := by
  constructor <;> decide

/-- Claim C6 (amended): for a Pon call of a rank-five tile, if the unused
physical copy is the red one the meld combination consists of three black
tiles (the red copy stays out of the meld); if instead the called tile is
red it is placed at the direction-dependent slot (left → slot 0, across →
slot 1, right → slot 2); otherwise the red copy is among the caller's own
two tiles and is placed at slot 1 for a call from the right and at slot 2
otherwise. -/
theorem C6_pon_red_amended :
    (∀ (who : Mjlog.Player) (dir : Mjlog.Direction)
        (comb : Mjlog.Hai × Mjlog.Hai × Mjlog.Hai) (called unused : Mjlog.Hai)
        (ct ut : Tenhou.Tile),
      called.is_number5 = true →
      Conv.conv_hai_to_tile called true = .ok ct →
      Conv.conv_hai_to_tile unused true = .ok ut →
      ut.is_red = true →
      Conv.replay_actions [.N ⟨who, .Pon dir comb called unused⟩] =
        .ok ([.Pon (ct.to_black, ct.to_black, ct.to_black) (Conv.conv_dir dir)], [])) ∧
    (∀ (who : Mjlog.Player) (dir : Mjlog.Direction)
        (comb : Mjlog.Hai × Mjlog.Hai × Mjlog.Hai) (called unused : Mjlog.Hai)
        (ct ut : Tenhou.Tile),
      called.is_number5 = true →
      Conv.conv_hai_to_tile called true = .ok ct →
      Conv.conv_hai_to_tile unused true = .ok ut →
      ut.is_red = false →
      ct.is_red = true →
      dir ≠ .SelfSeat →
      Conv.replay_actions [.N ⟨who, .Pon dir comb called unused⟩] =
        .ok ([.Pon
          (match Conv.conv_dir dir with
           | .Kamicha => (ct, ct.to_black, ct.to_black)
           | .Toimen => (ct.to_black, ct, ct.to_black)
           | _ => (ct.to_black, ct.to_black, ct))
          (Conv.conv_dir dir)], [])) ∧
    (∀ (who : Mjlog.Player) (dir : Mjlog.Direction)
        (comb : Mjlog.Hai × Mjlog.Hai × Mjlog.Hai) (called unused : Mjlog.Hai)
        (ct ut : Tenhou.Tile),
      called.is_number5 = true →
      Conv.conv_hai_to_tile called true = .ok ct →
      Conv.conv_hai_to_tile unused true = .ok ut →
      ut.is_red = false →
      ct.is_red = false →
      Conv.replay_actions [.N ⟨who, .Pon dir comb called unused⟩] =
        .ok ([.Pon
          (match Conv.conv_dir dir with
           | .Shimocha => (ct.to_black, ct.to_black.to_red, ct.to_black)
           | _ => (ct.to_black, ct.to_black, ct.to_black.to_red))
          (Conv.conv_dir dir)], [])) := by
  refine ⟨?_, ?_, ?_⟩
  · intro who dir comb called unused ct ut h5 hct hut hred
    simp only [Conv.replay_actions, List.foldlM, Conv.replay_step, Bind.bind,
      Except.bind, if_pos h5, hct, hut, hred, if_true]
    rfl
  · intro who dir comb called unused ct ut h5 hct hut hru hrc hdir
    cases dir with
    | SelfSeat => exact absurd rfl hdir
    | Shimocha =>
      simp only [Conv.replay_actions, List.foldlM, Conv.replay_step, Bind.bind,
        Except.bind, if_pos h5, hct, hut, hru, hrc, if_true, Bool.false_eq_true,
        if_false, Conv.conv_dir]
      rfl
    | Toimen =>
      simp only [Conv.replay_actions, List.foldlM, Conv.replay_step, Bind.bind,
        Except.bind, if_pos h5, hct, hut, hru, hrc, if_true, Bool.false_eq_true,
        if_false, Conv.conv_dir]
      rfl
    | Kamicha =>
      simp only [Conv.replay_actions, List.foldlM, Conv.replay_step, Bind.bind,
        Except.bind, if_pos h5, hct, hut, hru, hrc, if_true, Bool.false_eq_true,
        if_false, Conv.conv_dir]
      rfl
  · intro who dir comb called unused ct ut h5 hct hut hru hrc
    cases dir <;>
      simp only [Conv.replay_actions, List.foldlM, Conv.replay_step, Bind.bind,
        Except.bind, if_pos h5, hct, hut, hru, hrc, Bool.false_eq_true,
        if_false, Conv.conv_dir] <;>
      rfl

/-- Claim C6 (amended) witness: all three placement cases at concrete
inputs — red unused copy (left seat), red called tile (across), and red
among the caller's own tiles (right seat). -/
theorem C6_pon_red_amended_witness :
    Conv.replay_actions [.N ⟨⟨0⟩, ponRedUnusedMeld⟩] =
      .ok ([.Pon ((Tenhou.Tile.mk 15).to_black, (Tenhou.Tile.mk 15).to_black,
        (Tenhou.Tile.mk 15).to_black) (Conv.conv_dir .Kamicha)], []) ∧
    Conv.replay_actions [.N ⟨⟨0⟩, .Pon .Toimen (⟨16⟩, ⟨18⟩, ⟨19⟩) ⟨16⟩ ⟨17⟩⟩] =
      .ok ([.Pon
        (match Conv.conv_dir .Toimen with
         | .Kamicha => (Tenhou.Tile.mk 51, (Tenhou.Tile.mk 51).to_black,
             (Tenhou.Tile.mk 51).to_black)
         | .Toimen => ((Tenhou.Tile.mk 51).to_black, Tenhou.Tile.mk 51,
             (Tenhou.Tile.mk 51).to_black)
         | _ => ((Tenhou.Tile.mk 51).to_black, (Tenhou.Tile.mk 51).to_black,
             Tenhou.Tile.mk 51))
        (Conv.conv_dir .Toimen)], []) ∧
    Conv.replay_actions [.N ⟨⟨0⟩, .Pon .Shimocha (⟨16⟩, ⟨17⟩, ⟨18⟩) ⟨17⟩ ⟨19⟩⟩] =
      .ok ([.Pon
        (match Conv.conv_dir .Shimocha with
         | .Shimocha => ((Tenhou.Tile.mk 15).to_black,
             (Tenhou.Tile.mk 15).to_black.to_red, (Tenhou.Tile.mk 15).to_black)
         | _ => ((Tenhou.Tile.mk 15).to_black, (Tenhou.Tile.mk 15).to_black,
             (Tenhou.Tile.mk 15).to_black.to_red))
        (Conv.conv_dir .Shimocha)], []) :=
  ⟨C6_pon_red_amended.1 ⟨0⟩ .Kamicha (⟨17⟩, ⟨18⟩, ⟨19⟩) ⟨17⟩ ⟨16⟩ ⟨15⟩ ⟨51⟩
      (by decide) (by decide) (by decide) (by decide),
   C6_pon_red_amended.2.1 ⟨0⟩ .Toimen (⟨16⟩, ⟨18⟩, ⟨19⟩) ⟨16⟩ ⟨17⟩ ⟨51⟩ ⟨15⟩
      (by decide) (by decide) (by decide) (by decide) (by decide) (by decide),
   C6_pon_red_amended.2.2 ⟨0⟩ .Shimocha (⟨16⟩, ⟨17⟩, ⟨18⟩) ⟨17⟩ ⟨19⟩ ⟨15⟩ ⟨15⟩
      (by decide) (by decide) (by decide) (by decide) (by decide)⟩

/-! ## Claim theorems: round-result classification -/

/-- Claim C9 counterexample: a round slice containing both one win action
and one draw action produces a Draw result (the draw check has priority),
contradicting the claim that a Draw result is produced exactly when the
slice has zero win actions and that one-or-more win actions produce a Win
result. -/
theorem C9_counterexample :
    Conv.conv_round_result
        [.INIT sampleINIT, .AGARI sampleAgariYaku, .RYUUKYOKU sampleRyuukyokuNoOwari] =
      .ok (.Ryuukyoku .TenpaiNobody []) := by
  decide

/-- Claim C9 (amended): the converter checks draw (ryuukyoku) actions
first: a slice (headed by its round-init) with exactly one draw action
produces a Draw result regardless of any win actions, with the reason
classified as the explicit tag when present, else "everyone tenpai" when
all 4 seats recorded a closing-hand snapshot, "no one tenpai" when none
did, else plain draw; when the draw count differs from one, one-or-more
win actions produce the Win result; otherwise the terminal shape is a
format error (`InvalidRoundFormat`). -/
theorem C9_round_result_amended :
    ∀ (actions : List Mjlog.Action) (init : Mjlog.ActionINIT),
      actions.head? = some (.INIT init) →
      (∀ r, actions.filterMap Mjlog.Action.as_ryuukyoku = [r] →
        Conv.conv_round_result actions =
          .ok (.Ryuukyoku
            (match r.reason with
             | some x => Conv.conv_extra_ryuukyoku_reason (some x)
             | none =>
               if r.hai0.isSome && r.hai1.isSome && r.hai2.isSome && r.hai3.isSome then
                 .TenpaiEverybody
               else if !r.hai0.isSome && !r.hai1.isSome && !r.hai2.isSome && !r.hai3.isSome then
                 .TenpaiNobody
               else .Ryuukyoku)
            (Conv.conv_delta_points_ryuukyoku r))) ∧
      ((actions.filterMap Mjlog.Action.as_ryuukyoku).length ≠ 1 →
        actions.filterMap Mjlog.Action.as_agari ≠ [] →
        Conv.conv_round_result actions =
          Conv.conv_round_result_from_agari
            (actions.filterMap Mjlog.Action.as_agari) init.oya) ∧
      ((actions.filterMap Mjlog.Action.as_ryuukyoku).length ≠ 1 →
        actions.filterMap Mjlog.Action.as_agari = [] →
        Conv.conv_round_result actions = .error .InvalidRoundFormat) := by
  intro actions init hhead
  refine ⟨?_, ?_, ?_⟩
  · intro r hr
    have hres : Conv.conv_round_result actions =
        Conv.conv_round_result_from_ryuukyoku r := by
      simp only [Conv.conv_round_result, hhead, hr]
    rw [hres]
    unfold Conv.conv_round_result_from_ryuukyoku
    cases hreason : r.reason with
    | some x =>
      cases x <;> simp [Conv.conv_extra_ryuukyoku_reason]
    | none =>
      simp only [Conv.conv_extra_ryuukyoku_reason]
      cases h0 : r.hai0.isSome <;> cases h1 : r.hai1.isSome <;>
        cases h2 : r.hai2.isSome <;> cases h3 : r.hai3.isSome <;> simp
  · intro hlen hag
    rcases hr : actions.filterMap Mjlog.Action.as_ryuukyoku with _ | ⟨r1, rtl⟩
    · simp only [Conv.conv_round_result, hhead, hr]
      rw [if_pos hag]
    · rcases rtl with _ | ⟨r2, rtl2⟩
      · exact absurd (by rw [hr]; rfl) hlen
      · simp only [Conv.conv_round_result, hhead, hr]
        rw [if_pos hag]
  · intro hlen hag
    rcases hr : actions.filterMap Mjlog.Action.as_ryuukyoku with _ | ⟨r1, rtl⟩
    · simp only [Conv.conv_round_result, hhead, hr]
      rw [if_neg (fun hc => hc hag)]
    · rcases rtl with _ | ⟨r2, rtl2⟩
      · exact absurd (by rw [hr]; rfl) hlen
      · simp only [Conv.conv_round_result, hhead, hr]
        rw [if_neg (fun hc => hc hag)]

/-- Claim C9 (amended) witness: concrete instances — a lone draw action
with no hand snapshots classifies as "no one tenpai"; a slice with one win
action and no draw action is a Win result; a slice with neither fails
`InvalidRoundFormat`. -/
theorem C9_round_result_amended_witness :
    Conv.conv_round_result [.INIT sampleINIT, .RYUUKYOKU sampleRyuukyokuNoOwari] =
      .ok (.Ryuukyoku
        (match sampleRyuukyokuNoOwari.reason with
         | some x => Conv.conv_extra_ryuukyoku_reason (some x)
         | none =>
           if sampleRyuukyokuNoOwari.hai0.isSome && sampleRyuukyokuNoOwari.hai1.isSome &&
              sampleRyuukyokuNoOwari.hai2.isSome && sampleRyuukyokuNoOwari.hai3.isSome then
             .TenpaiEverybody
           else if !sampleRyuukyokuNoOwari.hai0.isSome && !sampleRyuukyokuNoOwari.hai1.isSome &&
              !sampleRyuukyokuNoOwari.hai2.isSome && !sampleRyuukyokuNoOwari.hai3.isSome then
             .TenpaiNobody
           else .Ryuukyoku)
        (Conv.conv_delta_points_ryuukyoku sampleRyuukyokuNoOwari)) ∧
    Conv.conv_round_result [.INIT sampleINIT, .AGARI sampleAgariYaku] =
      Conv.conv_round_result_from_agari [sampleAgariYaku] sampleINIT.oya ∧
    Conv.conv_round_result [.INIT sampleINIT] = .error .InvalidRoundFormat :=
  ⟨(C9_round_result_amended [.INIT sampleINIT, .RYUUKYOKU sampleRyuukyokuNoOwari]
      sampleINIT (by decide)).1 sampleRyuukyokuNoOwari (by decide),
   (C9_round_result_amended [.INIT sampleINIT, .AGARI sampleAgariYaku]
      sampleINIT (by decide)).2.1 (by decide) (by decide),
   (C9_round_result_amended [.INIT sampleINIT]
      sampleINIT (by decide)).2.2 (by decide) (by decide)⟩
